import Mathlib

/-!
# Playlist manager server: auth and playlist routes

A shallow embedding of the Express route handlers of `auth.routes.js`,
`playlists.routes.js` and `youtube.routes.js`, of the service
`youtube.service.js` and of `formatDuration` of the client script `search.js`.

* The user database (`users.json`) is the parsed document: a list of user
  records.  Every handler reads the whole document, changes it in memory and
  writes the whole document back; a handler is a function from the document
  (and the request) to a reply and the document left on disk.
* Values taken from a request body are JSON values; a property that is absent
  reads as `undefined`, which is `none : Option Json`.
* `Date.now()`, `new Date().toISOString()`, the bcrypt salt and the bcrypt
  functions are inputs of the handlers.
-/

set_option autoImplicit false

namespace PlaylistApp

/-! ## JSON values and the JavaScript operations the handlers apply to them -/

/-- A decimal number `mant * 10 ^ exp`.  Every JSON numeral and every numeric
string denotes such a number exactly.  The binary64 arithmetic of JavaScript is
not modelled: a numeral keeps its exact value where JavaScript rounds it to the
nearest double, overflows to an infinity or underflows to zero (rounding is the
identity on the integers below `2 ^ 53`), and `-0` is identified with `0`. -/
structure Dec where
  mant : Int
  exp : Int
  deriving DecidableEq, Repr

/-- Numeric equality of two decimals (they are compared at the smaller
exponent). -/
def Dec.eqv (a b : Dec) : Bool :=
  let m := min a.exp b.exp
  decide (a.mant * 10 ^ (a.exp - m).toNat = b.mant * 10 ^ (b.exp - m).toNat)

/-- The integer `n` as a decimal. -/
def Dec.ofInt (n : Int) : Dec := ⟨n, 0⟩

/-- A parsed JSON value. -/
inductive Json where
  | null
  | bool (b : Bool)
  | num (d : Dec)
  | str (s : String)
  | arr (xs : List Json)
  | obj (kvs : List (String × Json))
  deriving Repr

/-- A JSON object: its properties in order, read through `Obj.get`. -/
abbrev Obj := List (String × Json)

mutual
/-- Decidable equality of JSON values. -/
def Json.decEq : (a b : Json) → Decidable (a = b)
  | .null, .null => isTrue rfl
  | .bool a, .bool b =>
    if h : a = b then isTrue (by rw [h]) else isFalse (by intro e; cases e; exact h rfl)
  | .num a, .num b =>
    if h : a = b then isTrue (by rw [h]) else isFalse (by intro e; cases e; exact h rfl)
  | .str a, .str b =>
    if h : a = b then isTrue (by rw [h]) else isFalse (by intro e; cases e; exact h rfl)
  | .arr a, .arr b =>
    match Json.decEqList a b with
    | isTrue h => isTrue (by rw [h])
    | isFalse h => isFalse (by intro e; cases e; exact h rfl)
  | .obj a, .obj b =>
    match Json.decEqKvs a b with
    | isTrue h => isTrue (by rw [h])
    | isFalse h => isFalse (by intro e; cases e; exact h rfl)
  | .null, .bool _ | .null, .num _ | .null, .str _ | .null, .arr _ | .null, .obj _
  | .bool _, .null | .bool _, .num _ | .bool _, .str _ | .bool _, .arr _ | .bool _, .obj _
  | .num _, .null | .num _, .bool _ | .num _, .str _ | .num _, .arr _ | .num _, .obj _
  | .str _, .null | .str _, .bool _ | .str _, .num _ | .str _, .arr _ | .str _, .obj _
  | .arr _, .null | .arr _, .bool _ | .arr _, .num _ | .arr _, .str _ | .arr _, .obj _
  | .obj _, .null | .obj _, .bool _ | .obj _, .num _ | .obj _, .str _ | .obj _, .arr _ =>
    isFalse (by intro e; cases e)
/-- Decidable equality of lists of JSON values. -/
def Json.decEqList : (as bs : List Json) → Decidable (as = bs)
  | [], [] => isTrue rfl
  | [], _ :: _ => isFalse (by intro e; cases e)
  | _ :: _, [] => isFalse (by intro e; cases e)
  | a :: as, b :: bs =>
    match Json.decEq a b, Json.decEqList as bs with
    | isTrue h, isTrue h2 => isTrue (by rw [h, h2])
    | isFalse h, _ => isFalse (by intro e; cases e; exact h rfl)
    | _, isFalse h => isFalse (by intro e; cases e; exact h rfl)
/-- Decidable equality of property lists. -/
def Json.decEqKvs : (as bs : List (String × Json)) → Decidable (as = bs)
  | [], [] => isTrue rfl
  | [], _ :: _ => isFalse (by intro e; cases e)
  | _ :: _, [] => isFalse (by intro e; cases e)
  | (k, a) :: as, (l, b) :: bs =>
    if hk : k = l then
      match Json.decEq a b, Json.decEqKvs as bs with
      | isTrue h, isTrue h2 => isTrue (by rw [hk, h, h2])
      | isFalse h, _ => isFalse (by intro e; cases e; exact h rfl)
      | _, isFalse h => isFalse (by intro e; cases e; exact h rfl)
    else isFalse (by intro e; cases e; exact hk rfl)
end

instance : DecidableEq Json := Json.decEq

/-- Property read `o[k]`: the value bound to `k`, `undefined` when absent. -/
def Obj.get : Obj → String → Option Json
  | [], _ => none
  | (k1, v1) :: o, k => if k1 = k then some v1 else Obj.get o k

/-- Property write `o[k] = v`: an existing property keeps its place and takes
the new value, a new property goes to the end. -/
def Obj.set : Obj → String → Json → Obj
  | [], k, v => [(k, v)]
  | (k1, v1) :: o, k, v => if k1 = k then (k, v) :: o else (k1, v1) :: Obj.set o k v

/-- Property read `v.k` on a value that is not `null` or `undefined`: the own
property of a parsed object, `undefined` on every other value (the handlers read
only `username` this way, which no array or primitive has). -/
def Json.prop (v : Json) (k : String) : Option Json :=
  match v with
  | .obj kvs => Obj.get kvs k
  | _ => none

/-- JavaScript truthiness (`!v` is its negation). -/
def truthy : Option Json → Bool
  | none => false
  | some .null => false
  | some (.bool b) => b
  | some (.num d) => decide (d.mant ≠ 0)
  | some (.str s) => decide (s ≠ "")
  | some (.arr _) => true
  | some (.obj _) => true

/-- Strict equality `a === b`.  Arrays and objects compare by reference; the
operands the handlers compare always come from different parses (store, request
body, session), so two of them are never the same reference. -/
def strictEq : Option Json → Option Json → Bool
  | none, none => true
  | some .null, some .null => true
  | some (.bool a), some (.bool b) => a == b
  | some (.num a), some (.num b) => Dec.eqv a b
  | some (.str a), some (.str b) => a == b
  | _, _ => false

/-- The operator `a || b` with a defined right operand. -/
def orElse (a : Option Json) (b : Json) : Option Json :=
  if truthy a then a else some b

/-- A JavaScript number: `NaN`, an infinity, or a finite decimal. -/
inductive JsNum where
  | nan
  | inf (negative : Bool)
  | fin (d : Dec)
  deriving DecidableEq, Repr

/-- The characters `StringToNumber` trims: WhiteSpace and LineTerminator. -/
def isStrWhiteSpaceChar (c : Char) : Bool :=
  let n := c.toNat
  n == 0x9 || n == 0xA || n == 0xB || n == 0xC || n == 0xD || n == 0x20 || n == 0xA0
    || n == 0x1680 || (0x2000 ≤ n && n ≤ 0x200A) || n == 0x2028 || n == 0x2029
    || n == 0x202F || n == 0x205F || n == 0x3000 || n == 0xFEFF

/-- Strip leading and trailing white space. -/
def trimWhiteSpace (cs : List Char) : List Char :=
  ((cs.dropWhile isStrWhiteSpaceChar).reverse.dropWhile isStrWhiteSpaceChar).reverse

/-- The value of a digit in the given radix (at most 16). -/
def digitValue (radix : Nat) (c : Char) : Option Nat :=
  let n := c.toNat
  let v :=
    if 48 ≤ n ∧ n ≤ 57 then n - 48
    else if 97 ≤ n ∧ n ≤ 102 then n - 87
    else if 65 ≤ n ∧ n ≤ 70 then n - 55
    else 16
  if v < radix then some v else none

/-- Read digits in the given radix onto the accumulator; fails on a character
that is not a digit. -/
def readDigits (radix : Nat) : Nat → List Char → Option Nat
  | acc, [] => some acc
  | acc, c :: cs =>
    match digitValue radix c with
    | none => none
    | some v => readDigits radix (radix * acc + v) cs

/-- A non-empty run of digits in the given radix. -/
def readNat (radix : Nat) (cs : List Char) : Option Nat :=
  if cs.isEmpty then none else readDigits radix 0 cs

/-- The grammar's NonDecimalIntegerLiteral: `0x`, `0o` or `0b` and digits. -/
def parseNonDecimal : List Char → Option Dec
  | '0' :: c :: ds =>
    if c = 'x' ∨ c = 'X' then (readNat 16 ds).map (fun n => Dec.ofInt n)
    else if c = 'o' ∨ c = 'O' then (readNat 8 ds).map (fun n => Dec.ofInt n)
    else if c = 'b' ∨ c = 'B' then (readNat 2 ds).map (fun n => Dec.ofInt n)
    else none
  | _ => none

/-- The grammar's ExponentPart, or nothing: the decimal exponent. -/
def parseExponent : List Char → Option Int
  | [] => some 0
  | c :: rest =>
    if c = 'e' ∨ c = 'E' then
      match rest with
      | '+' :: ds => (readNat 10 ds).map (fun n => (n : Int))
      | '-' :: ds => (readNat 10 ds).map (fun n => -(n : Int))
      | ds => (readNat 10 ds).map (fun n => (n : Int))
    else none

/-- The grammar's StrUnsignedDecimalLiteral without `Infinity`: digits, an
optional fraction and an optional exponent, with a digit on at least one side of
the point. -/
def parseUnsignedDecimal (cs : List Char) : Option Dec :=
  let ip := cs.takeWhile Char.isDigit
  let r1 := cs.dropWhile Char.isDigit
  let fp := match r1 with
    | '.' :: r => r.takeWhile Char.isDigit
    | _ => []
  let r2 := match r1 with
    | '.' :: r => r.dropWhile Char.isDigit
    | _ => r1
  if ip.isEmpty && fp.isEmpty then none
  else
    match readDigits 10 0 (ip ++ fp), parseExponent r2 with
    | some m, some e => some ⟨(m : Int), e - (fp.length : Int)⟩
    | _, _ => none

/-- The grammar's StrDecimalLiteral after the sign. -/
def parseUnsigned (negative : Bool) (cs : List Char) : JsNum :=
  if cs = "Infinity".toList then .inf negative
  else
    match parseUnsignedDecimal cs with
    | none => .nan
    | some d => .fin (if negative then ⟨-d.mant, d.exp⟩ else d)

/-- The abstract operation `StringToNumber`: white space is trimmed, the empty
string is `0`, a numeric literal is its value and anything else is `NaN`. -/
def stringToNumber (s : List Char) : JsNum :=
  let cs := trimWhiteSpace s
  if cs.isEmpty then .fin (Dec.ofInt 0)
  else
    match parseNonDecimal cs with
    | some d => .fin d
    | none =>
      match cs with
      | '+' :: r => parseUnsigned false r
      | '-' :: r => parseUnsigned true r
      | _ => parseUnsigned false cs

/-- The number of the string an array element contributes to
`Array.prototype.join`: `null` joins as the empty string, a number prints to a
string that reads back as itself, a nested array joins its own elements, two or
more elements put a comma in the string, and an object prints as
`[object Object]`. -/
def joinedToNumber : Json → JsNum
  | .null => .fin (Dec.ofInt 0)
  | .bool _ => .nan
  | .num d => .fin d
  | .str s => stringToNumber s.toList
  | .arr [] => .fin (Dec.ofInt 0)
  | .arr [x] => joinedToNumber x
  | .arr (_ :: _ :: _) => .nan
  | .obj _ => .nan

mutual
/-- Whether the conversion of a value to a primitive throws a TypeError.  A
parsed object converts through `Object.prototype.toString` unless it has an own
property `toString`: that property is JSON, so not callable, and
`Object.prototype.valueOf` returns the object itself, so no method yields a
primitive.  An array converts through `join`, which converts every element. -/
def Json.toPrimitiveThrows : Json → Bool
  | .obj kvs => (Obj.get kvs "toString").isSome
  | .arr xs => Json.anyToPrimitiveThrows xs
  | _ => false
/-- Whether the conversion of some element of the list throws. -/
def Json.anyToPrimitiveThrows : List Json → Bool
  | [] => false
  | x :: xs => Json.toPrimitiveThrows x || Json.anyToPrimitiveThrows xs
end

/-- Whether the call `Number(v)` throws instead of returning. -/
def numberThrows : Option Json → Bool
  | some v => v.toPrimitiveThrows
  | none => false

/-- The function `Number(v)`, where it returns (see `numberThrows`). -/
def toNumber : Option Json → JsNum
  | none => .nan
  | some .null => .fin (Dec.ofInt 0)
  | some (.bool b) => .fin (Dec.ofInt (if b then 1 else 0))
  | some (.num d) => .fin d
  | some (.str s) => stringToNumber s.toList
  | some (.arr xs) => joinedToNumber (.arr xs)
  | some (.obj _) => .nan

/-- What `JSON.stringify` writes for a number, read back: a finite number is
itself, `NaN` and the infinities are written as `null`. -/
def jsonOfNumber : JsNum → Json
  | .fin d => .num d
  | _ => .null

/-! ## The user database -/

/-- A playlist item: the request body it was added with, plus `itemId` and
`rating`. -/
abbrev Item := Obj

/-- A playlist as `POST /` creates it. -/
structure Playlist where
  id : String
  name : Json
  createdAt : String
  items : List Item
  deriving DecidableEq, Repr

/-- A user record as `POST /register` creates it. -/
structure User where
  username : Json
  passwordHash : String
  firstName : Json
  imageUrl : Json
  playlists : List Playlist
  deriving DecidableEq, Repr

/-- The assignment `user.playlists = ps`. -/
def User.setPlaylists (u : User) (ps : List Playlist) : User := { u with playlists := ps }

/-- The assignment `playlist.items = its`. -/
def Playlist.setItems (p : Playlist) (its : List Item) : Playlist := { p with items := its }

/-- The parsed content of `users.json` (`readUsers()`); the second component of
a handler's result is what `writeUsers` left in the file, which is the input
when the handler returned before writing. -/
abbrev Store := List User

/-- The value of `req.session.user`: `undefined` without a login. -/
abbrev Session := Option Json

/-- What a handler sends. -/
inductive Reply where
  /-- The reply `res.status(status).json({ error: msg })`. -/
  | error (status : Nat) (msg : String)
  /-- The reply `res.json({ ok: true })`. -/
  | ok
  /-- The reply `res.json({ ok: true, user })`. -/
  | okUser (user : Json)
  /-- The reply `res.json({ user })`. -/
  | user (user : Json)
  /-- The reply `res.json({ playlists })`. -/
  | playlists (ps : List Playlist)
  /-- The reply `res.json({ playlist })`. -/
  | playlist (p : Playlist)
  /-- The reply `res.json({ item })`. -/
  | item (it : Item)
  /-- The handler threw (or its promise rejected): it sent no JSON reply. -/
  | fault
  deriving DecidableEq, Repr

/-- In-place change of the first element that satisfies `p`: the effect on the
array of `xs.find(p)` followed by a mutation of the object found. -/
def modifyFirst {α : Type} (p : α → Bool) (f : α → α) : List α → List α
  | [] => []
  | x :: xs => if p x then f x :: xs else x :: modifyFirst p f xs

/-- The two functions of `bcryptjs` the routes call, on string arguments:
`hash password salt` is the hash made with the generated salt, and
`compare password hash` tells whether the password matches the hash.  Both
reject an argument that is not a string. -/
structure Bcrypt where
  hash : String → String → String
  compare : String → String → Bool

/-! ## auth.routes.js -/

/-- The function `publicUser`. -/
def publicUser (u : User) : Json :=
  .obj [("username", u.username), ("firstName", u.firstName), ("imageUrl", u.imageUrl)]

/-- The route `POST /register`; `salt` is the salt bcrypt generates. -/
def register (bc : Bcrypt) (salt : String)
    (username password firstName imageUrl : Option Json) (users : Store) : Reply × Store :=
  if !truthy username || !truthy password || !truthy firstName || !truthy imageUrl then
    (.error 400 "Missing fields", users)
  else if (users.find? (fun u => strictEq (some u.username) username)).isSome then
    (.error 409 "User already exists", users)
  else
    match username, password, firstName, imageUrl with
    | some un, some (.str pw), some fn, some img =>
      (.ok, users ++ [{ username := un, passwordHash := bc.hash pw salt, firstName := fn,
                        imageUrl := img, playlists := [] }])
    | _, _, _, _ => (.fault, users)

/-- The route `POST /login`: the reply and the session user it leaves. -/
def login (bc : Bcrypt) (username password : Option Json) (users : Store)
    (session : Session) : Reply × Session :=
  match users.find? (fun u => strictEq (some u.username) username) with
  | none => (.error 401 "Invalid credentials", session)
  | some user =>
    match password with
    | some (.str pw) =>
      if bc.compare pw user.passwordHash then
        (.okUser (publicUser user), some (publicUser user))
      else (.error 401 "Invalid credentials", session)
    | _ => (.fault, session)

/-- The route `POST /logout`: the session is destroyed. -/
def logout (_session : Session) : Reply × Session := (.ok, none)

/-- The route `GET /me`. -/
def me (session : Session) : Reply :=
  match session with
  | some u => if !truthy (some u) then .error 401 "Not logged in" else .user u
  | none => .error 401 "Not logged in"

/-! ## playlists.routes.js -/

/-- The middleware `requireAuth`: whether the request goes on to the route. -/
def requireAuth (session : Session) : Bool := truthy session

/-- The expression `req.session.user.username`, read after `requireAuth`. -/
def sessionUsername (session : Session) : Option Json :=
  match session with
  | some u => u.prop "username"
  | none => none

/-- The predicate `u => u.username === req.session.user.username`. -/
def isSessionUser (session : Session) (u : User) : Bool :=
  strictEq (some u.username) (sessionUsername session)

/-- The function `getUser`. -/
def getUser (session : Session) (users : Store) : Option User :=
  users.find? (isSessionUser session)

/-- The predicate `i => i.itemId === req.params.itemId`. -/
def hasItemId (itemId : String) (i : Item) : Bool :=
  strictEq (i.get "itemId") (some (.str itemId))

/-- The route `GET /`. -/
def list (session : Session) (users : Store) : Reply :=
  if !requireAuth session then .error 401 "Not authenticated"
  else
    match getUser session users with
    | none => .fault
    | some user => .playlists user.playlists

/-- The route `POST /`; `now` is `Date.now()` and `iso` is
`new Date().toISOString()`. -/
def create (session : Session) (name : Option Json) (now : Nat) (iso : String)
    (users : Store) : Reply × Store :=
  if !requireAuth session then (.error 401 "Not authenticated", users)
  else
    match name with
    | none => (.error 400 "Missing name", users)
    | some nm =>
      if !truthy (some nm) then (.error 400 "Missing name", users)
      else
        match users.find? (isSessionUser session) with
        | none => (.fault, users)
        | some _ =>
          let playlist : Playlist :=
            { id := "pl-" ++ toString now, name := nm, createdAt := iso, items := [] }
          (.playlist playlist,
            modifyFirst (isSessionUser session)
              (fun u => u.setPlaylists (u.playlists ++ [playlist])) users)

/-- The route `DELETE /:playlistId`. -/
def remove (session : Session) (playlistId : String) (users : Store) : Reply × Store :=
  if !requireAuth session then (.error 401 "Not authenticated", users)
  else
    match users.find? (isSessionUser session) with
    | none => (.fault, users)
    | some _ =>
      (.ok,
        modifyFirst (isSessionUser session)
          (fun u => u.setPlaylists (u.playlists.filter (fun p => p.id != playlistId)))
          users)

/-- The item `{ ...req.body, itemId: "it-" + Date.now(), rating: 0 }`. -/
def newItem (body : Obj) (now : Nat) : Item :=
  (body.set "itemId" (.str ("it-" ++ toString now))).set "rating" (.num (Dec.ofInt 0))

/-- The route `POST /:playlistId/items`; `body` holds the properties of
`req.body` and `now` is `Date.now()`. -/
def addItem (session : Session) (playlistId : String) (body : Obj) (now : Nat)
    (users : Store) : Reply × Store :=
  if !requireAuth session then (.error 401 "Not authenticated", users)
  else
    match users.find? (isSessionUser session) with
    | none => (.fault, users)
    | some user =>
      match user.playlists.find? (fun p => p.id == playlistId) with
      | none => (.error 404 "Playlist not found", users)
      | some _ =>
        let item := newItem body now
        (.item item,
          modifyFirst (isSessionUser session)
            (fun u => u.setPlaylists
              (modifyFirst (fun p => p.id == playlistId)
                (fun p => p.setItems (p.items ++ [item])) u.playlists))
            users)

/-- The route `PATCH /:playlistId/items/:itemId`; `rating` is
`req.body.rating`.  The number assigned to `item.rating` reaches the file
through `JSON.stringify`; when `Number` throws, nothing is written. -/
def rate (session : Session) (playlistId itemId : String) (rating : Option Json)
    (users : Store) : Reply × Store :=
  if !requireAuth session then (.error 401 "Not authenticated", users)
  else
    match users.find? (isSessionUser session) with
    | none => (.fault, users)
    | some user =>
      match user.playlists.find? (fun p => p.id == playlistId) with
      | none => (.fault, users)
      | some playlist =>
        match playlist.items.find? (hasItemId itemId) with
        | none => (.fault, users)
        | some _ =>
          if numberThrows (orElse rating (.num (Dec.ofInt 0))) then (.fault, users)
          else
            let r := jsonOfNumber (toNumber (orElse rating (.num (Dec.ofInt 0))))
            (.ok,
              modifyFirst (isSessionUser session)
                (fun u => u.setPlaylists
                  (modifyFirst (fun p => p.id == playlistId)
                    (fun p => p.setItems
                      (modifyFirst (hasItemId itemId) (fun i => i.set "rating" r) p.items))
                    u.playlists))
                users)

/-- The route `DELETE /:playlistId/items/:itemId`. -/
def removeItem (session : Session) (playlistId itemId : String) (users : Store) :
    Reply × Store :=
  if !requireAuth session then (.error 401 "Not authenticated", users)
  else
    match users.find? (isSessionUser session) with
    | none => (.fault, users)
    | some user =>
      match user.playlists.find? (fun p => p.id == playlistId) with
      | none => (.fault, users)
      | some _ =>
        (.ok,
          modifyFirst (isSessionUser session)
            (fun u => u.setPlaylists
              (modifyFirst (fun p => p.id == playlistId)
                (fun p => p.setItems (p.items.filter (fun i => !hasItemId itemId i)))
                u.playlists))
            users)

/-! ## Reading the store the way the routes do -/

/-- The playlist a route finds for `req.params.playlistId`: the first playlist
with that id of the first record of the session user. -/
def lookupPlaylist (session : Session) (playlistId : String) (users : Store) :
    Option Playlist :=
  (getUser session users).bind (fun u => u.playlists.find? (fun p => p.id == playlistId))

/-- The item a route finds for `req.params.itemId` in that playlist. -/
def lookupItem (session : Session) (playlistId itemId : String) (users : Store) :
    Option Item :=
  (lookupPlaylist session playlistId users).bind (fun p => p.items.find? (hasItemId itemId))

/-! ## Sample data -/

/-- A stand-in for bcrypt: the hash is the salt followed by the password, and
a password matches the hash that ends with it after a one-character salt. -/
def sampleBcrypt : Bcrypt :=
  ⟨fun pw salt => salt ++ pw, fun pw h => h.drop 1 == pw⟩

/-- An uploaded item, rated 3. -/
def sampleItem : Item :=
  [("type", .str "mp3"), ("itemId", .str "it-1700000000000"), ("rating", .num (Dec.ofInt 3))]

/-- A playlist with one item. -/
def samplePlaylist : Playlist :=
  { id := "pl-1699990000000", name := .str "mix", createdAt := "2023-11-14T19:26:40.000Z",
    items := [sampleItem] }

/-- A request body for a YouTube item. -/
def sampleBody : Obj := [("type", .str "youtube"), ("videoId", .str "dQw4w9WgXcQ")]

/-- A request body that carries its own `rating` and `itemId`. -/
def overridingBody : Obj :=
  [("rating", .num (Dec.ofInt 9)), ("videoId", .str "dQw4w9WgXcQ"), ("itemId", .str "mine")]

/-- A user owning `samplePlaylist`. -/
def sampleUser : User :=
  { username := .str "ann", passwordHash := "$secret", firstName := .str "Ann",
    imageUrl := .str "ann.png", playlists := [samplePlaylist] }

/-- A second user, without playlists. -/
def otherUser : User :=
  { username := .str "bob", passwordHash := "$hunter2", firstName := .str "Bob",
    imageUrl := .str "bob.png", playlists := [] }

/-- A store with two users. -/
def sampleStore : Store := [otherUser, sampleUser]

/-- The session of `sampleUser` after login. -/
def sampleSession : Session := some (publicUser sampleUser)

/-- The session of `otherUser` after login. -/
def otherSession : Session := some (publicUser otherUser)

/-! ## playlists.routes.js: the MP3 upload

Where a route works on a string unit by unit (the regular expression of the
file name, `endsWith`), the string is its sequence of UTF-16 code units. -/

/-- A JavaScript string as its UTF-16 code units. -/
abbrev Utf16 := List Nat

/-- The code units of one character. -/
def utf16Char (c : Char) : Utf16 :=
  if c.toNat < 0x10000 then [c.toNat]
  else [0xD800 + (c.toNat - 0x10000) / 0x400, 0xDC00 + (c.toNat - 0x10000) % 0x400]

/-- The code units of a string. -/
def utf16 (s : String) : Utf16 := s.toList.flatMap utf16Char

/-- The part of `req.file` the upload reads. -/
structure UploadFile where
  mimetype : String
  originalname : Utf16
  deriving DecidableEq, Repr

/-- The character class `[a-zA-Z0-9._-]` of the file name pattern. -/
def isSafeUnit (c : Nat) : Bool :=
  (97 ≤ c && c ≤ 122) || (65 ≤ c && c ≤ 90) || (48 ≤ c && c ≤ 57)
    || c == 46 || c == 95 || c == 45

/-- The expression `file.originalname.replace(/[^a-zA-Z0-9._-]/g, "_")`. -/
def safeName (originalname : Utf16) : Utf16 :=
  originalname.map (fun c => if isSafeUnit c then c else 95)

/-- The callback `storage.filename`: `Date.now() + "-" + safeName`. -/
def storageFilename (now : Nat) (file : UploadFile) : Utf16 :=
  utf16 (toString now) ++ utf16 "-" ++ safeName file.originalname

/-- What `fileFilter` passes to its callback. -/
inductive FilterResult where
  /-- The call `cb(null, true)`. -/
  | accept
  /-- The call `cb(new Error(msg))`. -/
  | reject (msg : String)
  deriving DecidableEq, Repr

/-- The callback `upload.fileFilter`. -/
def fileFilter (file : UploadFile) : FilterResult :=
  if file.mimetype == "audio/mpeg" || (utf16 ".mp3").isSuffixOf file.originalname then .accept
  else .reject "Only MP3 files allowed"

/-- What the upload route sends. -/
inductive UploadReply where
  /-- The reply `res.status(status).json({ error: msg })`. -/
  | error (status : Nat) (msg : String)
  /-- The file filter refused the file: multer hands the error on and the
  route handler does not run. -/
  | rejected (msg : String)
  /-- The reply `res.json({ fileUrl, originalName })`. -/
  | uploaded (fileUrl originalName : Utf16)
  /-- The handler threw. -/
  | fault
  deriving DecidableEq, Repr

/-- The route `POST /upload/mp3`; `file` is the file of the form field `mp3`,
absent when the request has none, and `now` is `Date.now()`. -/
def uploadMp3 (session : Session) (file : Option UploadFile) (now : Nat) : UploadReply :=
  if !requireAuth session then .error 401 "Not authenticated"
  else
    match file with
    | none => .fault
    | some f =>
      match fileFilter f with
      | .reject msg => .rejected msg
      | .accept => .uploaded (utf16 "/uploads/" ++ storageFilename now f) f.originalname

/-! ## youtube.service.js and youtube.routes.js

The two responses of the YouTube Data API are taken in the shape the service
reads: `items[].id.videoId`, `snippet.title` and `snippet.thumbnails.medium.url`
of the search response, `items[].id`, `contentDetails.duration` and
`statistics.viewCount` of the details response. -/

/-- An item of the search response. -/
structure SearchItem where
  videoId : String
  title : String
  thumbnail : String
  deriving DecidableEq, Repr

/-- An item of the details response; a property the response lacks is `none`. -/
structure DetailItem where
  id : String
  duration : Option String
  viewCount : Option String
  deriving DecidableEq, Repr

/-- An entry of the list `searchYouTube` returns. -/
structure Video where
  videoId : String
  title : String
  thumbnail : String
  duration : String
  views : String
  deriving DecidableEq, Repr

/-- A call of `fetch`: the search URL for a query, or the videos URL for a
comma-separated list of ids. -/
inductive ApiCall where
  | search (query : String)
  | videos (ids : String)
  deriving DecidableEq, Repr

/-- The external API: the parsed response to each of the two requests, `none`
when the request or the reading of its response throws. -/
structure YouTubeApi where
  search : String → Option (List SearchItem)
  videos : String → Option (List DetailItem)

/-- The operator `a || b` on a string that may be `undefined`. -/
def strOr (a : Option String) (b : String) : String :=
  match a with
  | some s => if s = "" then b else s
  | none => b

/-- The object `detailsMap` after the `forEach`: each item assigns the entry of
its id, a later item with the same id replacing an earlier one. -/
def detailsMap (details : List DetailItem) :
    String → Option (Option String × Option String) :=
  details.foldl (fun m v => fun k => if k = v.id then some (v.duration, v.viewCount) else m k)
    (fun _ => none)

/-- The entry the final `map` builds for a search item. -/
def mergeVideo (m : String → Option (Option String × Option String)) (v : SearchItem) :
    Video :=
  { videoId := v.videoId, title := v.title, thumbnail := v.thumbnail,
    duration := strOr ((m v.videoId).bind (fun e => e.1)) "N/A",
    views := strOr ((m v.videoId).bind (fun e => e.2)) "0" }

/-- The function `searchYouTube`: its result, `none` when it throws, and the
calls of `fetch` it made, in order. -/
def searchYouTube (api : YouTubeApi) (query : String) : Option (List Video) × List ApiCall :=
  match api.search query with
  | none => (none, [.search query])
  | some items =>
    let videoIds := ",".intercalate (items.map (fun v => v.videoId))
    if videoIds = "" then (some [], [.search query])
    else
      match api.videos videoIds with
      | none => (none, [.search query, .videos videoIds])
      | some details =>
        (some (items.map (mergeVideo (detailsMap details))), [.search query, .videos videoIds])

/-- What the search route sends. -/
inductive SearchReply where
  /-- The reply `res.status(status).json({ error: msg })`. -/
  | error (status : Nat) (msg : String)
  /-- The reply `res.json({ query, results })`. -/
  | results (query : String) (results : List Video)
  deriving DecidableEq, Repr

/-- The route `GET /search`; `q` is `req.query.q`. -/
def search (api : YouTubeApi) (session : Session) (q : Option String) :
    SearchReply × List ApiCall :=
  if !requireAuth session then (.error 401 "Not authenticated", [])
  else
    match q with
    | none => (.error 400 "Missing query parameter", [])
    | some query =>
      if query = "" then (.error 400 "Missing query parameter", [])
      else
        match searchYouTube api query with
        | (none, calls) => (.error 500 "YouTube search failed", calls)
        | (some results, calls) => (.results query results, calls)

/-! ## search.js -/

/-- The rest of the string after the first occurrence of `PT`: where the
pattern `/PT(?:(\d+)M)?(?:(\d+)S)?/` matches, if it does. -/
def afterFirstPT : List Char → Option (List Char)
  | [] => none
  | c :: cs => if c = 'P' ∧ cs.head? = some 'T' then some cs.tail else afterFirstPT cs

/-- An optional group `(?:(\d+)t)?` at the head of the string: the digits
captured and the rest, or no capture and the string itself. -/
def optionalDigits (t : Char) (cs : List Char) : Option (List Char) × List Char :=
  match cs.dropWhile Char.isDigit with
  | c :: rest =>
    if c = t ∧ cs.takeWhile Char.isDigit ≠ [] then (some (cs.takeWhile Char.isDigit), rest)
    else (none, cs)
  | [] => (none, cs)

/-- The operator `a || b` on a capture group. -/
def groupOr (a : Option (List Char)) (b : List Char) : List Char :=
  match a with
  | some ds => if ds = [] then b else ds
  | none => b

/-- The method `padStart(n, fill)` with a fill of one character. -/
def padStart (n : Nat) (fill : Char) (cs : List Char) : List Char :=
  List.replicate (n - cs.length) fill ++ cs

/-- The function `formatDuration`. -/
def formatDuration (iso : String) : String :=
  if iso = "" ∨ iso = "N/A" then "N/A"
  else
    match afterFirstPT iso.toList with
    | none => iso
    | some rest =>
      let minutes := groupOr (optionalDigits 'M' rest).1 ['0']
      let seconds :=
        padStart 2 '0' (groupOr (optionalDigits 'S' (optionalDigits 'M' rest).2).1 ['0'])
      String.mk (minutes ++ [':'] ++ seconds)

/-! ## Properties of the store -/

/-- A rating that is an integer between 0 and 10. -/
def isValidRating (v : Option Json) : Bool :=
  match v with
  | some (.num d) => (List.range 11).any (fun n => Dec.eqv d (Dec.ofInt n))
  | _ => false

/-- Every item of every playlist of every user has a valid rating. -/
def ratingsValid (users : Store) : Bool :=
  users.all (fun u => u.playlists.all (fun p =>
    p.items.all (fun i => isValidRating (i.get "rating"))))

mutual
/-- Whether two JSON values are the same value: equal, with numbers compared by
their value, arrays element by element and objects property by property. -/
def Json.same : Json → Json → Bool
  | .null, .null => true
  | .bool a, .bool b => a == b
  | .num a, .num b => Dec.eqv a b
  | .str a, .str b => a == b
  | .arr a, .arr b => Json.sameList a b
  | .obj a, .obj b => Json.sameProps a b
  | _, _ => false
/-- Whether two lists hold the same values in the same order. -/
def Json.sameList : List Json → List Json → Bool
  | [], [] => true
  | a :: as, b :: bs => Json.same a b && Json.sameList as bs
  | _, _ => false
/-- Whether two property lists hold the same properties in the same order. -/
def Json.sameProps : List (String × Json) → List (String × Json) → Bool
  | [], [] => true
  | (k, a) :: as, (l, b) :: bs => k == l && Json.same a b && Json.sameProps as bs
  | _, _ => false
end

/-- A value that is not an array or an object. -/
def Json.isPrimitive : Json → Bool
  | .arr _ => false
  | .obj _ => false
  | _ => true

/-- No two records of the store have the same username. -/
def usernamesUnique (users : Store) : Prop :=
  (users.map (fun u => u.username)).Pairwise (fun a b => Json.same a b = false)

instance (users : Store) : Decidable (usernamesUnique users) := by
  unfold usernamesUnique
  infer_instance

/-- What a route run for the session user may change in going from the store
`before` to the store `after`: the records are as many and in the same places,
each keeps its username, password hash, first name and image URL, and a record
whose playlists differ is the first record of the session user. -/
def onlySessionPlaylistsChange (session : Session) (before after : Store) : Prop :=
  after.length = before.length
    ∧ ∀ (i : Nat) (r : User), before[i]? = some r →
        ∃ r2, after[i]? = some r2
          ∧ r2.username = r.username ∧ r2.passwordHash = r.passwordHash
          ∧ r2.firstName = r.firstName ∧ r2.imageUrl = r.imageUrl
          ∧ (r2.playlists ≠ r.playlists →
              isSessionUser session r = true
                ∧ ∀ (j : Nat) (q : User), j < i → before[j]? = some q →
                    isSessionUser session q = false)

/-- A sample search response. -/
def sampleSearchItems : List SearchItem :=
  [⟨"dQw4w9WgXcQ", "Never Gonna Give You Up", "https://i.ytimg.com/vi/dQw4w9WgXcQ/m.jpg"⟩,
   ⟨"9bZkp7q19f0", "Gangnam Style", "https://i.ytimg.com/vi/9bZkp7q19f0/m.jpg"⟩]

/-- A sample API: the query `rick` finds the two sample videos, every other
query finds nothing, and the details response knows only the first video. -/
def sampleApi : YouTubeApi :=
  ⟨fun q => if q = "rick" then some sampleSearchItems else some [],
   fun _ => some [⟨"dQw4w9WgXcQ", some "PT3M33S", some "1500000000"⟩]⟩

/-- A sample API whose details response has an entry for the second sample
video with an empty duration and without a view count. -/
def emptyDetailsApi : YouTubeApi :=
  ⟨fun _ => some sampleSearchItems,
   fun _ => some [⟨"dQw4w9WgXcQ", some "PT3M33S", some "1500000000"⟩,
                  ⟨"9bZkp7q19f0", some "", none⟩]⟩

/-! ## Lemmas on lists and objects -/

theorem find?_modifyFirst {α : Type} (p : α → Bool) (f : α → α) (hf : ∀ x, p (f x) = p x)
    (xs : List α) : (modifyFirst p f xs).find? p = (xs.find? p).map f := by
  induction xs with
  | nil => rfl
  | cons x xs ih =>
    by_cases hx : p x = true
    · simp [modifyFirst, hx, hf]
    · simp [modifyFirst, hx, ih]

theorem modifyFirst_eq_self {α : Type} (p : α → Bool) (f : α → α) (xs : List α) (a : α)
    (ha : xs.find? p = some a) (hfa : f a = a) : modifyFirst p f xs = xs := by
  induction xs with
  | nil => rfl
  | cons x xs ih =>
    by_cases hx : p x = true
    · rw [List.find?_cons_of_pos _ hx] at ha
      have hxa : x = a := Option.some.inj ha
      subst hxa
      simp [modifyFirst, hx, hfa]
    · rw [List.find?_cons_of_neg _ hx] at ha
      simp [modifyFirst, hx, ih ha]

theorem length_modifyFirst {α : Type} (p : α → Bool) (f : α → α) (xs : List α) :
    (modifyFirst p f xs).length = xs.length := by
  induction xs with
  | nil => rfl
  | cons x xs ih =>
    by_cases hx : p x = true <;> simp [modifyFirst, hx, ih]

theorem Obj.get_set_self (o : Obj) (k : String) (v : Json) : (o.set k v).get k = some v := by
  induction o with
  | nil => simp [Obj.set, Obj.get]
  | cons x xs ih =>
    obtain ⟨k1, v1⟩ := x
    by_cases h : k1 = k
    · simp [Obj.set, Obj.get, h]
    · simp [Obj.set, Obj.get, h, ih]

theorem Obj.get_set_of_ne (o : Obj) (k k2 : String) (v : Json) (hk : k2 ≠ k) :
    (o.set k v).get k2 = o.get k2 := by
  have hk2 : ¬ k = k2 := fun h => hk h.symm
  induction o with
  | nil => simp [Obj.set, Obj.get, hk2]
  | cons x xs ih =>
    obtain ⟨k1, v1⟩ := x
    by_cases h : k1 = k
    · subst h
      simp [Obj.set, Obj.get, hk2]
    · by_cases h2 : k1 = k2
      · subst h2
        simp [Obj.set, Obj.get, h]
      · simp [Obj.set, Obj.get, h, h2, ih]

/-! ## Lemmas on the lookups -/

theorem strictEq_str (v : Json) (s : String) :
    strictEq (some v) (some (.str s)) = decide (v = .str s) := by
  cases v with
  | str t => by_cases h : t = s <;> simp [strictEq, h]
  | null => simp [strictEq]
  | bool b => simp [strictEq]
  | num d => simp [strictEq]
  | arr xs => simp [strictEq]
  | obj kvs => simp [strictEq]

theorem strictEq_undefined (v : Json) : strictEq (some v) none = false := by
  cases v <;> rfl

theorem requireAuth_of_isSessionUser (session : Session) (u : User)
    (h : isSessionUser session u = true) : requireAuth session = true := by
  unfold isSessionUser sessionUsername at h
  cases session with
  | none => simp [strictEq_undefined] at h
  | some v =>
    cases v with
    | obj kvs => rfl
    | null => simp [Json.prop, strictEq_undefined] at h
    | bool b => simp [Json.prop, strictEq_undefined] at h
    | num d => simp [Json.prop, strictEq_undefined] at h
    | str t => simp [Json.prop, strictEq_undefined] at h
    | arr xs => simp [Json.prop, strictEq_undefined] at h

theorem requireAuth_of_getUser (session : Session) (users : Store) (u : User)
    (h : getUser session users = some u) : requireAuth session = true :=
  requireAuth_of_isSessionUser session u (List.find?_some h)

theorem getUser_setPlaylists (session : Session) (k : User → List Playlist) (users : Store) :
    getUser session (modifyFirst (isSessionUser session) (fun u => u.setPlaylists (k u)) users)
      = (getUser session users).map (fun u => u.setPlaylists (k u)) := by
  unfold getUser
  apply find?_modifyFirst
  intro u
  rfl

theorem lookupPlaylist_setItems (session : Session) (playlistId : String)
    (k : Playlist → List Item) (users : Store) :
    lookupPlaylist session playlistId
        (modifyFirst (isSessionUser session)
          (fun u => u.setPlaylists
            (modifyFirst (fun p => p.id == playlistId) (fun p => p.setItems (k p)) u.playlists))
          users)
      = (lookupPlaylist session playlistId users).map (fun p => p.setItems (k p)) := by
  unfold lookupPlaylist
  rw [getUser_setPlaylists]
  cases getUser session users with
  | none => rfl
  | some u =>
    simp only [Option.map_some', Option.some_bind, User.setPlaylists]
    apply find?_modifyFirst
    intro p
    rfl

theorem hasItemId_set_rating (itemId : String) (i : Item) (r : Json) :
    hasItemId itemId (i.set "rating" r) = hasItemId itemId i := by
  unfold hasItemId
  rw [Obj.get_set_of_ne i "rating" "itemId" r (by decide)]

theorem lookupPlaylist_some (session : Session) (playlistId : String) (users : Store)
    (pl : Playlist) (h : lookupPlaylist session playlistId users = some pl) :
    ∃ u, getUser session users = some u
      ∧ u.playlists.find? (fun p => p.id == playlistId) = some pl := by
  unfold lookupPlaylist at h
  cases hu : getUser session users with
  | none => simp [hu] at h
  | some u => exact ⟨u, rfl, by simpa [hu] using h⟩

/-! ## What the item routes do to a playlist that exists -/

theorem addItem_found (session : Session) (playlistId : String) (body : Obj) (now : Nat)
    (users : Store) (pl : Playlist) (h : lookupPlaylist session playlistId users = some pl) :
    (addItem session playlistId body now users).1 = .item (newItem body now)
      ∧ lookupPlaylist session playlistId (addItem session playlistId body now users).2
          = some (pl.setItems (pl.items ++ [newItem body now])) := by
  obtain ⟨u, hu, hp⟩ := lookupPlaylist_some session playlistId users pl h
  have ha := requireAuth_of_getUser session users u hu
  unfold getUser at hu
  simp only [addItem, ha, hu, hp, Bool.not_true, Bool.false_eq_true, if_false, true_and]
  rw [lookupPlaylist_setItems, h]
  rfl

theorem removeItem_found (session : Session) (playlistId itemId : String)
    (users : Store) (pl : Playlist) (h : lookupPlaylist session playlistId users = some pl) :
    (removeItem session playlistId itemId users).1 = .ok
      ∧ lookupPlaylist session playlistId (removeItem session playlistId itemId users).2
          = some (pl.setItems (pl.items.filter (fun i => !hasItemId itemId i))) := by
  obtain ⟨u, hu, hp⟩ := lookupPlaylist_some session playlistId users pl h
  have ha := requireAuth_of_getUser session users u hu
  unfold getUser at hu
  simp only [removeItem, ha, hu, hp, Bool.not_true, Bool.false_eq_true, if_false, true_and]
  rw [lookupPlaylist_setItems, h]
  rfl

theorem rate_found (session : Session) (playlistId itemId : String) (rating : Option Json)
    (users : Store) (it : Item) (h : lookupItem session playlistId itemId users = some it)
    (hnt : numberThrows (orElse rating (.num (Dec.ofInt 0))) = false) :
    (rate session playlistId itemId rating users).1 = .ok
      ∧ lookupItem session playlistId itemId (rate session playlistId itemId rating users).2
          = some (it.set "rating"
              (jsonOfNumber (toNumber (orElse rating (.num (Dec.ofInt 0)))))) := by
  unfold lookupItem at h ⊢
  cases hpl : lookupPlaylist session playlistId users with
  | none => simp [hpl] at h
  | some pl =>
    rw [hpl] at h
    simp only [Option.some_bind] at h
    obtain ⟨u, hu, hp⟩ := lookupPlaylist_some session playlistId users pl hpl
    have ha := requireAuth_of_getUser session users u hu
    unfold getUser at hu
    simp only [rate, ha, hu, hp, h, hnt, Bool.not_true, Bool.false_eq_true, if_false,
      true_and]
    rw [lookupPlaylist_setItems, hpl]
    simp only [Option.map_some', Option.some_bind, Playlist.setItems]
    rw [find?_modifyFirst _ _ (fun i => hasItemId_set_rating itemId i _), h]
    rfl

theorem addItem_not_found (session : Session) (playlistId : String) (body : Obj) (now : Nat)
    (users : Store) (u : User) (hu : getUser session users = some u)
    (hp : u.playlists.find? (fun p => p.id == playlistId) = none) :
    addItem session playlistId body now users = (.error 404 "Playlist not found", users) := by
  have ha := requireAuth_of_getUser session users u hu
  unfold getUser at hu
  simp only [addItem, ha, hu, hp, Bool.not_true, Bool.false_eq_true, if_false]

theorem newItem_itemId (body : Obj) (now : Nat) :
    (newItem body now).get "itemId" = some (.str ("it-" ++ toString now)) := by
  unfold newItem
  rw [Obj.get_set_of_ne _ "rating" "itemId" _ (by decide), Obj.get_set_self]

/-! ## The claims -/

/-- C1: when the session user owns playlist `playlistId` containing item
`itemId`, the rate route called with the rating input `"7"` replies
`{ok: true}` and leaves that item with rating 7; called with `"abc"` it also
replies `{ok: true}` but leaves the item with the rating `null` that
`JSON.stringify` writes for `Number("abc")`, which is `NaN`, and not with 0. -/
theorem rate_numeric_and_non_numeric_string (session : Session) (playlistId itemId : String)
    (users : Store) (it : Item) (h : lookupItem session playlistId itemId users = some it) :
    (rate session playlistId itemId (some (.str "7")) users).1 = .ok
      ∧ (lookupItem session playlistId itemId
            (rate session playlistId itemId (some (.str "7")) users).2).bind
          (fun i => i.get "rating") = some (.num (Dec.ofInt 7))
      ∧ (rate session playlistId itemId (some (.str "abc")) users).1 = .ok
      ∧ (lookupItem session playlistId itemId
            (rate session playlistId itemId (some (.str "abc")) users).2).bind
          (fun i => i.get "rating") = some .null
      ∧ toNumber (orElse (some (.str "abc")) (.num (Dec.ofInt 0))) = .nan := by
  have h7 := rate_found session playlistId itemId (some (.str "7")) users it h (by decide)
  have ha := rate_found session playlistId itemId (some (.str "abc")) users it h (by decide)
  refine ⟨h7.1, ?_, ha.1, ?_, by decide⟩
  · rw [h7.2, Option.some_bind, Obj.get_set_self]
    decide
  · rw [ha.2, Option.some_bind, Obj.get_set_self]
    decide

/-- C1, on the sample store: rating the stored item with `"abc"` leaves it
with the rating `null`. -/
theorem rate_numeric_and_non_numeric_string_witness :
    lookupItem sampleSession "pl-1699990000000" "it-1700000000000" sampleStore = some sampleItem
      ∧ (lookupItem sampleSession "pl-1699990000000" "it-1700000000000"
            (rate sampleSession "pl-1699990000000" "it-1700000000000" (some (.str "abc"))
              sampleStore).2).bind
          (fun i => i.get "rating") = some .null :=
  ⟨by decide,
    (rate_numeric_and_non_numeric_string sampleSession "pl-1699990000000" "it-1700000000000"
      sampleStore sampleItem (by decide)).2.2.2.1⟩

/-- C2 fails as stated: in the sample store the playlist holds one item, whose
id is `it-1700000000000`; an addItem at clock reading 1700000000000 returns an
item with the same id, and removeItem of that id then leaves the playlist with
no item, not with the one it had. -/
theorem addItem_then_removeItem_count_counterexample :
    (lookupPlaylist sampleSession "pl-1699990000000" sampleStore).map (fun p => p.items.length)
        = some 1
      ∧ (addItem sampleSession "pl-1699990000000" sampleBody 1700000000000 sampleStore).1
          = .item [("type", .str "youtube"), ("videoId", .str "dQw4w9WgXcQ"),
              ("itemId", .str "it-1700000000000"), ("rating", .num (Dec.ofInt 0))]
      ∧ (lookupPlaylist sampleSession "pl-1699990000000"
            (removeItem sampleSession "pl-1699990000000" "it-1700000000000"
              (addItem sampleSession "pl-1699990000000" sampleBody 1700000000000
                sampleStore).2).2).map
          (fun p => p.items.length) = some 0 := by
  decide

/-- C2, amended: when no item already in the playlist has the id that addItem
generates, addItem followed by removeItem of the returned item's id leaves the
playlist with the number of items it had before the addItem. -/
theorem addItem_then_removeItem_count (session : Session) (playlistId : String) (body : Obj)
    (now : Nat) (users : Store) (pl : Playlist)
    (h : lookupPlaylist session playlistId users = some pl)
    (hfresh : ∀ i ∈ pl.items, hasItemId ("it-" ++ toString now) i = false) :
    ∃ it, (addItem session playlistId body now users).1 = .item it
      ∧ it.get "itemId" = some (.str ("it-" ++ toString now))
      ∧ (lookupPlaylist session playlistId
            (removeItem session playlistId ("it-" ++ toString now)
              (addItem session playlistId body now users).2).2).map
          (fun p => p.items.length) = some pl.items.length := by
  have hadd := addItem_found session playlistId body now users pl h
  have hrem := removeItem_found session playlistId ("it-" ++ toString now) _ _ hadd.2
  refine ⟨newItem body now, hadd.1, newItem_itemId body now, ?_⟩
  rw [hrem.2]
  have hnew : hasItemId ("it-" ++ toString now) (newItem body now) = true := by
    unfold hasItemId
    rw [newItem_itemId, strictEq_str]
    simp
  have hkeep : pl.items.filter (fun i => !hasItemId ("it-" ++ toString now) i) = pl.items := by
    rw [List.filter_eq_self]
    intro i hi
    simp [hfresh i hi]
  simp [Playlist.setItems, List.filter_append, hkeep, hnew]

/-- C2, amended, on the sample store one millisecond later. -/
theorem addItem_then_removeItem_count_witness :
    ∃ it, (addItem sampleSession "pl-1699990000000" sampleBody 1700000000001 sampleStore).1
          = .item it
      ∧ it.get "itemId" = some (.str ("it-" ++ toString 1700000000001))
      ∧ (lookupPlaylist sampleSession "pl-1699990000000"
            (removeItem sampleSession "pl-1699990000000" ("it-" ++ toString 1700000000001)
              (addItem sampleSession "pl-1699990000000" sampleBody 1700000000001
                sampleStore).2).2).map
          (fun p => p.items.length) = some samplePlaylist.items.length :=
  addItem_then_removeItem_count sampleSession "pl-1699990000000" sampleBody 1700000000001
    sampleStore samplePlaylist (by decide) (by decide)

/-- C3: for a session user with a record in the store, addItem replies
404 "Playlist not found" and leaves the store unchanged when the user has no
playlist with the given id; otherwise it replies with the new item and the
playlist found is left with its previous items followed by that one item,
whose rating is 0, whose itemId is `"it-"` followed by the clock reading, and
whose every other property is the property of the request body. -/
theorem addItem_spec (session : Session) (playlistId : String) (body : Obj) (now : Nat)
    (users : Store) (u : User) (hu : getUser session users = some u) :
    (u.playlists.find? (fun p => p.id == playlistId) = none →
        addItem session playlistId body now users = (.error 404 "Playlist not found", users))
      ∧ (∀ pl, u.playlists.find? (fun p => p.id == playlistId) = some pl →
          ∃ it, (addItem session playlistId body now users).1 = .item it
            ∧ lookupPlaylist session playlistId (addItem session playlistId body now users).2
                = some (pl.setItems (pl.items ++ [it]))
            ∧ it.get "rating" = some (.num (Dec.ofInt 0))
            ∧ it.get "itemId" = some (.str ("it-" ++ toString now))
            ∧ ∀ k, k ≠ "itemId" → k ≠ "rating" → it.get k = body.get k) := by
  refine ⟨addItem_not_found session playlistId body now users u hu, ?_⟩
  intro pl hp
  have h : lookupPlaylist session playlistId users = some pl := by
    simp [lookupPlaylist, hu, hp]
  have hadd := addItem_found session playlistId body now users pl h
  refine ⟨newItem body now, hadd.1, hadd.2, ?_, newItem_itemId body now, ?_⟩
  · exact Obj.get_set_self _ _ _
  · intro k hk1 hk2
    unfold newItem
    rw [Obj.get_set_of_ne _ "rating" k _ hk2, Obj.get_set_of_ne _ "itemId" k _ hk1]

/-- C3, on the sample store: an unknown playlist id gives 404 and the same
store, and a body that carries its own `rating` and `itemId` is stored with
rating 0 and the generated id. -/
theorem addItem_spec_witness :
    addItem sampleSession "pl-1600000000000" sampleBody 1700000000008 sampleStore
        = (.error 404 "Playlist not found", sampleStore)
      ∧ ∃ it,
          (addItem sampleSession "pl-1699990000000" overridingBody 1700000000008 sampleStore).1
            = .item it
          ∧ lookupPlaylist sampleSession "pl-1699990000000"
              (addItem sampleSession "pl-1699990000000" overridingBody 1700000000008
                sampleStore).2
            = some (samplePlaylist.setItems (samplePlaylist.items ++ [it]))
          ∧ it.get "rating" = some (.num (Dec.ofInt 0))
          ∧ it.get "itemId" = some (.str ("it-" ++ toString 1700000000008))
          ∧ ∀ k, k ≠ "itemId" → k ≠ "rating" → it.get k = overridingBody.get k :=
  ⟨(addItem_spec sampleSession "pl-1600000000000" sampleBody 1700000000008 sampleStore
      sampleUser (by decide)).1 (by decide),
    (addItem_spec sampleSession "pl-1699990000000" overridingBody 1700000000008 sampleStore
      sampleUser (by decide)).2 samplePlaylist (by decide)⟩

/-- C4 fails as stated: on the empty store, which holds no user of any name,
register with the empty username and non-empty other fields replies
400 "Missing fields"; with the non-empty password 123, a number, it sends no
reply, since bcrypt rejects a password that is not a string; and with the
username `["cy"]`, an array, it succeeds and then succeeds again instead of
replying 409, since `===` never holds between two arrays. -/
theorem register_then_conflict_counterexample :
    register sampleBcrypt "$" (some (.str "")) (some (.str "secret")) (some (.str "Ann"))
        (some (.str "ann.png")) [] = (.error 400 "Missing fields", [])
      ∧ register sampleBcrypt "$" (some (.str "cy")) (some (.num (Dec.ofInt 123)))
          (some (.str "Cy")) (some (.str "cy.png")) [] = (.fault, [])
      ∧ register sampleBcrypt "$" (some (.arr [.str "cy"])) (some (.str "pw"))
          (some (.str "Cy")) (some (.str "cy.png")) []
        = (.ok, [⟨.arr [.str "cy"], "$pw", .str "Cy", .str "cy.png", []⟩])
      ∧ register sampleBcrypt "$" (some (.arr [.str "cy"])) (some (.str "pw"))
          (some (.str "Cy")) (some (.str "cy.png"))
          [⟨.arr [.str "cy"], "$pw", .str "Cy", .str "cy.png", []⟩]
        = (.ok, [⟨.arr [.str "cy"], "$pw", .str "Cy", .str "cy.png", []⟩,
            ⟨.arr [.str "cy"], "$pw", .str "Cy", .str "cy.png", []⟩]) := by
  decide

/-- C4, amended: for a username that is a non-empty string `u` which no stored
record has, a password that is a non-empty string, and a first name and an
image URL that are any truthy JSON values, register replies `{ok: true}` and
leaves the store with one more record at the end, holding `u`, the hash of the
password, the first name, the image URL and no playlist; a second register of
`u` with any truthy other fields, strings or not, replies
409 "User already exists" and leaves that store as it is. -/
theorem register_then_conflict (bc : Bcrypt) (salt salt2 u p : String) (fn img : Json)
    (p2 fn2 img2 : Option Json) (users : Store) (hu : u ≠ "") (hp : p ≠ "")
    (hfn : truthy (some fn) = true) (himg : truthy (some img) = true)
    (hp2 : truthy p2 = true) (hfn2 : truthy fn2 = true) (himg2 : truthy img2 = true)
    (hnew : ∀ r ∈ users, r.username ≠ .str u) :
    register bc salt (some (.str u)) (some (.str p)) (some fn) (some img) users
        = (.ok, users ++ [⟨.str u, bc.hash p salt, fn, img, []⟩])
      ∧ register bc salt2 (some (.str u)) p2 fn2 img2
          (users ++ [⟨.str u, bc.hash p salt, fn, img, []⟩])
        = (.error 409 "User already exists",
            users ++ [⟨.str u, bc.hash p salt, fn, img, []⟩]) := by
  have hnone : users.find? (fun r => strictEq (some r.username) (some (.str u))) = none := by
    rw [List.find?_eq_none]
    intro r hr
    simp [strictEq_str, hnew r hr]
  have htu : truthy (some (.str u)) = true := by simp [truthy, hu]
  have htp : truthy (some (.str p)) = true := by simp [truthy, hp]
  constructor
  · simp [register, htu, htp, hfn, himg, hnone]
  · simp [register, htu, hp2, hfn2, himg2, List.find?_append, hnone, strictEq_str]

/-- C4, amended, on the sample store: `cy` registers, then conflicts, the
second time with a password that is a number. -/
theorem register_then_conflict_witness :
    register sampleBcrypt "$" (some (.str "cy")) (some (.str "pw")) (some (.str "Cy"))
        (some (.str "cy.png")) sampleStore
        = (.ok, sampleStore ++ [⟨.str "cy", sampleBcrypt.hash "pw" "$", .str "Cy",
            .str "cy.png", []⟩])
      ∧ register sampleBcrypt "%" (some (.str "cy")) (some (.num (Dec.ofInt 123)))
          (some (.str "C")) (some (.str "c.png"))
          (sampleStore
            ++ [⟨.str "cy", sampleBcrypt.hash "pw" "$", .str "Cy", .str "cy.png", []⟩])
        = (.error 409 "User already exists",
            sampleStore ++ [⟨.str "cy", sampleBcrypt.hash "pw" "$", .str "Cy",
              .str "cy.png", []⟩]) :=
  register_then_conflict sampleBcrypt "$" "%" "cy" "pw" (.str "Cy") (.str "cy.png")
    (some (.num (Dec.ofInt 123))) (some (.str "C")) (some (.str "c.png"))
    sampleStore (by decide) (by decide) (by decide) (by decide) (by decide) (by decide)
    (by decide) (by decide)

/-- C5: when at least one of username, password, firstName and imageUrl is
missing from the request or is the empty string, register replies
400 "Missing fields" and leaves the store unchanged, whatever the store holds
(so also when a record with the username exists). -/
theorem register_missing_field (bc : Bcrypt) (salt : String)
    (username password firstName imageUrl : Option Json) (users : Store)
    (h : (username = none ∨ username = some (.str ""))
      ∨ (password = none ∨ password = some (.str ""))
      ∨ (firstName = none ∨ firstName = some (.str ""))
      ∨ (imageUrl = none ∨ imageUrl = some (.str ""))) :
    register bc salt username password firstName imageUrl users
      = (.error 400 "Missing fields", users) := by
  have hf : ∀ v : Option Json, (v = none ∨ v = some (.str "")) → truthy v = false := by
    intro v hv
    rcases hv with rfl | rfl <;> rfl
  unfold register
  rcases h with h | h | h | h <;> simp [hf _ h]

/-- C5, on the sample store: `ann` is registered already, the request has an
empty password, and the reply is 400, not 409. -/
theorem register_missing_field_witness :
    (sampleStore.find? (fun r => decide (r.username = .str "ann"))).isSome = true
      ∧ register sampleBcrypt "$" (some (.str "ann")) (some (.str "")) (some (.str "Ann")) none
          sampleStore = (.error 400 "Missing fields", sampleStore) :=
  ⟨by decide,
    register_missing_field sampleBcrypt "$" (some (.str "ann")) (some (.str ""))
      (some (.str "Ann")) none sampleStore (Or.inr (Or.inl (Or.inr rfl)))⟩

/-- C6 fails as stated: `ann` is stored, and login as `ann` without a
password, or with the password 123, a number, replies neither
401 "Invalid credentials" nor `{ok: true, user}`: `bcrypt.compare` rejects a
password that is not a string and the route sends no reply. -/
theorem login_without_string_password_counterexample :
    sampleStore.find? (fun r => decide (r.username = .str "ann")) = some sampleUser
      ∧ login sampleBcrypt (some (.str "ann")) none sampleStore none = (.fault, none)
      ∧ login sampleBcrypt (some (.str "ann")) (some (.num (Dec.ofInt 123))) sampleStore none
        = (.fault, none) := by
  decide

/-- C6, amended: for every store, every username and every password, login
replies 401 "Invalid credentials" and leaves the session as it was exactly
when no stored record has a username `===` to the given one (for a string
username: no record has that username) or the password is a string that does
not verify against the password hash of the first such record; it sends no
reply and leaves the session as it was exactly when there is such a record and
the password is missing or is not a string; in every other case it replies
`{ok: true, user}` with the public projection of that record and makes it the
session user. -/
theorem login_unauthorized_iff (bc : Bcrypt) (username password : Option Json)
    (users : Store) (session : Session) :
    (login bc username password users session = (.error 401 "Invalid credentials", session)
        ↔ (users.find? (fun r => strictEq (some r.username) username) = none
          ∨ ∃ r p, users.find? (fun r => strictEq (some r.username) username) = some r
              ∧ password = some (.str p) ∧ bc.compare p r.passwordHash = false))
      ∧ (login bc username password users session = (.fault, session)
        ↔ ∃ r, users.find? (fun r => strictEq (some r.username) username) = some r
            ∧ ∀ p, password ≠ some (.str p))
      ∧ (login bc username password users session
            = (.error 401 "Invalid credentials", session)
          ∨ login bc username password users session = (.fault, session)
          ∨ ∃ r p, users.find? (fun r => strictEq (some r.username) username) = some r
              ∧ password = some (.str p) ∧ bc.compare p r.passwordHash = true
              ∧ login bc username password users session
                  = (.okUser (publicUser r), some (publicUser r)))
      ∧ (∀ u, username = some (.str u) →
          (users.find? (fun r => strictEq (some r.username) username) = none
            ↔ ∀ r ∈ users, r.username ≠ .str u)) := by
  have hlast : ∀ u, username = some (.str u) →
      (users.find? (fun r => strictEq (some r.username) username) = none
        ↔ ∀ r ∈ users, r.username ≠ .str u) := by
    intro u hu
    subst hu
    rw [List.find?_eq_none]
    constructor
    · intro h r hr
      simpa [strictEq_str] using h r hr
    · intro h r hr
      simpa [strictEq_str] using h r hr
  refine ⟨?_, ?_, ?_, hlast⟩
  · unfold login
    cases hf : users.find? (fun r => strictEq (some r.username) username) with
    | none => simp
    | some r =>
      cases password with
      | none => simp
      | some pv =>
        cases pv with
        | str p => by_cases hc : bc.compare p r.passwordHash = true <;> simp [hc]
        | null => simp
        | bool b => simp
        | num d => simp
        | arr xs => simp
        | obj kvs => simp
  · unfold login
    cases hf : users.find? (fun r => strictEq (some r.username) username) with
    | none => simp
    | some r =>
      cases password with
      | none => simp
      | some pv =>
        cases pv with
        | str p => by_cases hc : bc.compare p r.passwordHash = true <;> simp [hc]
        | null => simp
        | bool b => simp
        | num d => simp
        | arr xs => simp
        | obj kvs => simp
  · unfold login
    cases hf : users.find? (fun r => strictEq (some r.username) username) with
    | none => simp
    | some r =>
      cases password with
      | none => simp
      | some pv =>
        cases pv with
        | str p => by_cases hc : bc.compare p r.passwordHash = true <;> simp [hc]
        | null => simp
        | bool b => simp
        | num d => simp
        | arr xs => simp
        | obj kvs => simp

/-- C7: when login as `u` with password `p` succeeds, that is, the record
found for `u` verifies `p`, `me` on the session it leaves replies with a user
object that has exactly the properties username, firstName and imageUrl, with
the values of the stored record, and neither passwordHash nor playlists;
without a session user, `me` replies 401 "Not logged in". -/
theorem me_after_login (bc : Bcrypt) (u p : String) (users : Store) (session : Session)
    (r : User) (hfind : users.find? (fun r => decide (r.username = .str u)) = some r)
    (hok : bc.compare p r.passwordHash = true) :
    me (login bc (some (.str u)) (some (.str p)) users session).2
        = .user (.obj [("username", r.username), ("firstName", r.firstName),
            ("imageUrl", r.imageUrl)])
      ∧ Json.prop (.obj [("username", r.username), ("firstName", r.firstName),
            ("imageUrl", r.imageUrl)]) "passwordHash" = none
      ∧ Json.prop (.obj [("username", r.username), ("firstName", r.firstName),
            ("imageUrl", r.imageUrl)]) "playlists" = none
      ∧ me none = .error 401 "Not logged in" := by
  have hfun : (fun r : User => strictEq (some r.username) (some (.str u)))
      = (fun r : User => decide (r.username = .str u)) := by
    funext r
    exact strictEq_str r.username u
  refine ⟨?_, by simp [Json.prop, Obj.get], by simp [Json.prop, Obj.get], rfl⟩
  unfold login
  rw [hfun, hfind]
  simp [hok, me, publicUser, truthy]

/-- C7, on the sample store: after `ann` logs in, `me` shows her three public
properties. -/
theorem me_after_login_witness :
    me (login sampleBcrypt (some (.str "ann")) (some (.str "secret")) sampleStore none).2
        = .user (.obj [("username", .str "ann"), ("firstName", .str "Ann"),
            ("imageUrl", .str "ann.png")])
      ∧ Json.prop (.obj [("username", .str "ann"), ("firstName", .str "Ann"),
            ("imageUrl", .str "ann.png")]) "passwordHash" = none
      ∧ Json.prop (.obj [("username", .str "ann"), ("firstName", .str "Ann"),
            ("imageUrl", .str "ann.png")]) "playlists" = none
      ∧ me none = .error 401 "Not logged in" :=
  me_after_login sampleBcrypt "ann" "secret" sampleStore none sampleUser (by decide) (by decide)

/-- C6, amended, on the sample store: a wrong password for `ann` is refused,
and a missing one gets no reply. -/
theorem login_unauthorized_iff_witness :
    login sampleBcrypt (some (.str "ann")) (some (.str "guess")) sampleStore none
        = (.error 401 "Invalid credentials", none)
      ∧ login sampleBcrypt (some (.str "ann")) none sampleStore none = (.fault, none) :=
  ⟨(login_unauthorized_iff sampleBcrypt (some (.str "ann")) (some (.str "guess")) sampleStore
      none).1.mpr (Or.inr ⟨sampleUser, "guess", by decide, rfl, by decide⟩),
    (login_unauthorized_iff sampleBcrypt (some (.str "ann")) none sampleStore
      none).2.1.mpr ⟨sampleUser, by decide, fun p h => by cases h⟩⟩

/-- C8: for a session user with a record in the store and a non-empty name
`x`, create replies with a playlist named `x` without items, and list on the
store it leaves replies with the user's previous playlists in their order
followed by that playlist; for a user without playlists the list is that one
playlist. -/
theorem create_then_list (session : Session) (x : String) (now : Nat) (iso : String)
    (users : Store) (u : User) (hu : getUser session users = some u) (hx : x ≠ "") :
    (create session (some (.str x)) now iso users).1
        = .playlist ⟨"pl-" ++ toString now, .str x, iso, []⟩
      ∧ list session (create session (some (.str x)) now iso users).2
        = .playlists (u.playlists ++ [⟨"pl-" ++ toString now, .str x, iso, []⟩])
      ∧ (u.playlists = [] →
          list session (create session (some (.str x)) now iso users).2
            = .playlists [⟨"pl-" ++ toString now, .str x, iso, []⟩]) := by
  have ha := requireAuth_of_getUser session users u hu
  have hu2 := hu
  unfold getUser at hu2
  have hc : create session (some (.str x)) now iso users
      = (.playlist ⟨"pl-" ++ toString now, .str x, iso, []⟩,
          modifyFirst (isSessionUser session)
            (fun u =>
              u.setPlaylists (u.playlists ++ [⟨"pl-" ++ toString now, .str x, iso, []⟩]))
            users) := by
    simp [create, ha, hu2, truthy, hx]
  have hl : list session (create session (some (.str x)) now iso users).2
      = .playlists (u.playlists ++ [⟨"pl-" ++ toString now, .str x, iso, []⟩]) := by
    rw [hc]
    simp only [list, ha, Bool.not_true, Bool.false_eq_true, if_false]
    rw [getUser_setPlaylists, hu]
    rfl
  refine ⟨by rw [hc], hl, ?_⟩
  intro hnil
  rw [hl, hnil]
  rfl

/-- C8, on the sample store: `bob` has no playlist, creates `road` and lists
exactly that playlist. -/
theorem create_then_list_witness :
    (create otherSession (some (.str "road")) 1706868000000 "2024-02-02T10:00:00.000Z"
        sampleStore).1
        = .playlist
            ⟨"pl-" ++ toString 1706868000000, .str "road", "2024-02-02T10:00:00.000Z", []⟩
      ∧ list otherSession
          (create otherSession (some (.str "road")) 1706868000000 "2024-02-02T10:00:00.000Z"
            sampleStore).2
        = .playlists
            [⟨"pl-" ++ toString 1706868000000, .str "road", "2024-02-02T10:00:00.000Z", []⟩] :=
  ⟨(create_then_list otherSession "road" 1706868000000 "2024-02-02T10:00:00.000Z" sampleStore
      otherUser (by decide) (by decide)).1,
    (create_then_list otherSession "road" 1706868000000 "2024-02-02T10:00:00.000Z" sampleStore
      otherUser (by decide) (by decide)).2.2 (by decide)⟩

/-- C9: for a logged-in session, create with a name that is missing or is
the empty string replies 400 "Missing name" and leaves the store unchanged. -/
theorem create_missing_name (session : Session) (name : Option Json) (now : Nat)
    (iso : String) (users : Store) (hs : requireAuth session = true)
    (hn : name = none ∨ name = some (.str "")) :
    create session name now iso users = (.error 400 "Missing name", users) := by
  rcases hn with rfl | rfl <;> simp [create, hs, truthy]

/-- C9, on the sample store, with an empty name. -/
theorem create_missing_name_witness :
    create sampleSession (some (.str "")) 1706868000000 "2024-02-02T10:00:00.000Z" sampleStore
      = (.error 400 "Missing name", sampleStore) :=
  create_missing_name sampleSession (some (.str "")) 1706868000000 "2024-02-02T10:00:00.000Z"
    sampleStore (by decide) (Or.inr rfl)

/-- C10: for a session user with a record in the store, remove replies
`{ok: true}` and leaves the user with the previous playlists filtered by
`id ≠ playlistId`: list replies with that filtered list, no playlist in it has
the id, every playlist with another id is in it, and the store is unchanged
when no playlist has the id. -/
theorem remove_filters_playlists (session : Session) (playlistId : String) (users : Store)
    (u : User) (hu : getUser session users = some u) :
    (remove session playlistId users).1 = .ok
      ∧ getUser session (remove session playlistId users).2
        = some (u.setPlaylists (u.playlists.filter (fun p => p.id != playlistId)))
      ∧ list session (remove session playlistId users).2
        = .playlists (u.playlists.filter (fun p => p.id != playlistId))
      ∧ (∀ p ∈ u.playlists.filter (fun p => p.id != playlistId), p.id ≠ playlistId)
      ∧ (∀ p ∈ u.playlists, p.id ≠ playlistId →
          p ∈ u.playlists.filter (fun p => p.id != playlistId))
      ∧ ((∀ p ∈ u.playlists, p.id ≠ playlistId) →
          (remove session playlistId users).2 = users) := by
  have ha := requireAuth_of_getUser session users u hu
  have hu2 := hu
  unfold getUser at hu2
  have hr : remove session playlistId users
      = (.ok, modifyFirst (isSessionUser session)
          (fun u => u.setPlaylists (u.playlists.filter (fun p => p.id != playlistId))) users) := by
    simp [remove, ha, hu2]
  have hg : getUser session (remove session playlistId users).2
      = some (u.setPlaylists (u.playlists.filter (fun p => p.id != playlistId))) := by
    rw [hr]
    simp only []
    rw [getUser_setPlaylists, hu]
    rfl
  refine ⟨by rw [hr], hg, ?_, ?_, ?_, ?_⟩
  · simp only [list, ha, Bool.not_true, Bool.false_eq_true, if_false, hg]
    rfl
  · intro p hp
    simpa using (List.mem_filter.mp hp).2
  · intro p hp hne
    exact List.mem_filter.mpr ⟨hp, by simpa using hne⟩
  · intro hall
    rw [hr]
    apply modifyFirst_eq_self _ _ _ u hu2
    have hkeep : u.playlists.filter (fun p => p.id != playlistId) = u.playlists := by
      rw [List.filter_eq_self]
      intro p hp
      simpa using hall p hp
    rw [hkeep]
    rfl

/-- C10, on the sample store: removing her playlist leaves `ann` without
playlists, and removing an unknown id leaves the store as it is. -/
theorem remove_filters_playlists_witness :
    list sampleSession (remove sampleSession "pl-1699990000000" sampleStore).2 = .playlists []
      ∧ (remove sampleSession "pl-1600000000000" sampleStore).2 = sampleStore :=
  ⟨(remove_filters_playlists sampleSession "pl-1699990000000" sampleStore sampleUser
      (by decide)).2.2.1,
    (remove_filters_playlists sampleSession "pl-1600000000000" sampleStore sampleUser
      (by decide)).2.2.2.2.2 (by decide)⟩

/-- C11: when the session user owns a playlist with the given id, removeItem
replies `{ok: true}` and leaves that playlist with its previous items filtered
by `itemId !== req.params.itemId`: no item left has the id, every item with
another id is kept, in the original order, and the store is unchanged when no
item of the playlist has the id. -/
theorem removeItem_filters_items (session : Session) (playlistId itemId : String)
    (users : Store) (pl : Playlist) (h : lookupPlaylist session playlistId users = some pl) :
    (removeItem session playlistId itemId users).1 = .ok
      ∧ lookupPlaylist session playlistId (removeItem session playlistId itemId users).2
          = some (pl.setItems (pl.items.filter (fun i => !hasItemId itemId i)))
      ∧ (∀ i ∈ pl.items.filter (fun i => !hasItemId itemId i), hasItemId itemId i = false)
      ∧ (∀ i ∈ pl.items, hasItemId itemId i = false →
          i ∈ pl.items.filter (fun i => !hasItemId itemId i))
      ∧ ((∀ i ∈ pl.items, hasItemId itemId i = false) →
          (removeItem session playlistId itemId users).2 = users) := by
  have hrem := removeItem_found session playlistId itemId users pl h
  refine ⟨hrem.1, hrem.2, ?_, ?_, ?_⟩
  · intro i hi
    simpa using (List.mem_filter.mp hi).2
  · intro i hi hne
    exact List.mem_filter.mpr ⟨hi, by simp [hne]⟩
  · intro hall
    obtain ⟨u, hu, hp⟩ := lookupPlaylist_some session playlistId users pl h
    have ha := requireAuth_of_getUser session users u hu
    unfold getUser at hu
    simp only [removeItem, ha, hu, hp, Bool.not_true, Bool.false_eq_true, if_false]
    apply modifyFirst_eq_self _ _ _ u hu
    have hkeep : pl.items.filter (fun i => !hasItemId itemId i) = pl.items := by
      rw [List.filter_eq_self]
      intro i hi
      simp [hall i hi]
    have hpl : modifyFirst (fun p => p.id == playlistId)
        (fun p => p.setItems (p.items.filter (fun i => !hasItemId itemId i))) u.playlists
        = u.playlists := by
      apply modifyFirst_eq_self _ _ _ pl hp
      simp only [hkeep]
      rfl
    simp only [hpl]
    rfl

/-- C11, on the sample store: removing the stored item empties the playlist,
and removing an unknown item id leaves the store as it is. -/
theorem removeItem_filters_items_witness :
    lookupPlaylist sampleSession "pl-1699990000000"
        (removeItem sampleSession "pl-1699990000000" "it-1700000000000" sampleStore).2
        = some (samplePlaylist.setItems [])
      ∧ (removeItem sampleSession "pl-1699990000000" "it-1600000000000" sampleStore).2
        = sampleStore :=
  ⟨(removeItem_filters_items sampleSession "pl-1699990000000" "it-1700000000000" sampleStore
      samplePlaylist (by decide)).2.1,
    (removeItem_filters_items sampleSession "pl-1699990000000" "it-1600000000000" sampleStore
      samplePlaylist (by decide)).2.2.2.2 (by decide)⟩

/-- C12: for a session user with a record in the store, rate throws and
leaves the store unchanged when the user has no playlist with the given id, and
when the playlist found has no item with the given item id; addItem on an
absent playlist replies 404 "Playlist not found" instead. -/
theorem rate_absent_faults (session : Session) (playlistId itemId : String)
    (rating : Option Json) (body : Obj) (now : Nat) (users : Store) (u : User)
    (hu : getUser session users = some u) :
    (u.playlists.find? (fun p => p.id == playlistId) = none →
        rate session playlistId itemId rating users = (.fault, users))
      ∧ (∀ pl, u.playlists.find? (fun p => p.id == playlistId) = some pl →
          pl.items.find? (hasItemId itemId) = none →
          rate session playlistId itemId rating users = (.fault, users))
      ∧ (u.playlists.find? (fun p => p.id == playlistId) = none →
          addItem session playlistId body now users
            = (.error 404 "Playlist not found", users)) := by
  have ha := requireAuth_of_getUser session users u hu
  have hu2 := hu
  unfold getUser at hu2
  refine ⟨?_, ?_, addItem_not_found session playlistId body now users u hu⟩
  · intro hp
    simp only [rate, ha, hu2, hp, Bool.not_true, Bool.false_eq_true, if_false]
  · intro pl hp hi
    simp only [rate, ha, hu2, hp, hi, Bool.not_true, Bool.false_eq_true, if_false]

/-- C12, on the sample store: an unknown playlist and an unknown item make
rate throw, and the unknown playlist makes addItem reply 404. -/
theorem rate_absent_faults_witness :
    rate sampleSession "pl-1600000000000" "it-1700000000000" (some (.str "7")) sampleStore
        = (.fault, sampleStore)
      ∧ rate sampleSession "pl-1699990000000" "it-1600000000000" (some (.str "7")) sampleStore
        = (.fault, sampleStore)
      ∧ addItem sampleSession "pl-1600000000000" sampleBody 1700000000008 sampleStore
        = (.error 404 "Playlist not found", sampleStore) :=
  ⟨(rate_absent_faults sampleSession "pl-1600000000000" "it-1700000000000" (some (.str "7"))
      sampleBody 1700000000008 sampleStore sampleUser (by decide)).1 (by decide),
    (rate_absent_faults sampleSession "pl-1699990000000" "it-1600000000000" (some (.str "7"))
      sampleBody 1700000000008 sampleStore sampleUser (by decide)).2.1 samplePlaylist
      (by decide) (by decide),
    (rate_absent_faults sampleSession "pl-1600000000000" "it-1700000000000" (some (.str "7"))
      sampleBody 1700000000008 sampleStore sampleUser (by decide)).2.2 (by decide)⟩

/-! ## The store each playlist route leaves -/

theorem create_store (session : Session) (name : Option Json) (now : Nat) (iso : String)
    (users : Store) :
    (create session name now iso users).2 = users
      ∨ ∃ pl : Playlist, pl.items = []
          ∧ (create session name now iso users).2
            = modifyFirst (isSessionUser session)
                (fun u => u.setPlaylists (u.playlists ++ [pl])) users := by
  unfold create
  split
  · exact Or.inl rfl
  · split
    · exact Or.inl rfl
    · split
      · exact Or.inl rfl
      · split
        · exact Or.inl rfl
        · exact Or.inr ⟨_, rfl, rfl⟩

theorem remove_store (session : Session) (playlistId : String) (users : Store) :
    (remove session playlistId users).2 = users
      ∨ (remove session playlistId users).2
        = modifyFirst (isSessionUser session)
            (fun u => u.setPlaylists (u.playlists.filter (fun p => p.id != playlistId)))
            users := by
  unfold remove
  split
  · exact Or.inl rfl
  · split
    · exact Or.inl rfl
    · exact Or.inr rfl

theorem addItem_store (session : Session) (playlistId : String) (body : Obj) (now : Nat)
    (users : Store) :
    (addItem session playlistId body now users).2 = users
      ∨ (addItem session playlistId body now users).2
        = modifyFirst (isSessionUser session)
            (fun u => u.setPlaylists
              (modifyFirst (fun p => p.id == playlistId)
                (fun p => p.setItems (p.items ++ [newItem body now])) u.playlists))
            users := by
  unfold addItem
  split
  · exact Or.inl rfl
  · split
    · exact Or.inl rfl
    · split
      · exact Or.inl rfl
      · exact Or.inr rfl

theorem rate_store (session : Session) (playlistId itemId : String) (rating : Option Json)
    (users : Store) :
    (rate session playlistId itemId rating users).2 = users
      ∨ (rate session playlistId itemId rating users).2
        = modifyFirst (isSessionUser session)
            (fun u => u.setPlaylists
              (modifyFirst (fun p => p.id == playlistId)
                (fun p => p.setItems
                  (modifyFirst (hasItemId itemId)
                    (fun i => i.set "rating"
                      (jsonOfNumber (toNumber (orElse rating (.num (Dec.ofInt 0))))))
                    p.items))
                u.playlists))
            users := by
  unfold rate
  split
  · exact Or.inl rfl
  · split
    · exact Or.inl rfl
    · split
      · exact Or.inl rfl
      · split
        · exact Or.inl rfl
        · split
          · exact Or.inl rfl
          · exact Or.inr rfl

theorem removeItem_store (session : Session) (playlistId itemId : String) (users : Store) :
    (removeItem session playlistId itemId users).2 = users
      ∨ (removeItem session playlistId itemId users).2
        = modifyFirst (isSessionUser session)
            (fun u => u.setPlaylists
              (modifyFirst (fun p => p.id == playlistId)
                (fun p => p.setItems (p.items.filter (fun i => !hasItemId itemId i)))
                u.playlists))
            users := by
  unfold removeItem
  split
  · exact Or.inl rfl
  · split
    · exact Or.inl rfl
    · split
      · exact Or.inl rfl
      · exact Or.inr rfl

theorem all_modifyFirst {α : Type} (p q : α → Bool) (f : α → α) (xs : List α)
    (hf : ∀ x, q x = true → q (f x) = true) (h : xs.all q = true) :
    (modifyFirst p f xs).all q = true := by
  induction xs with
  | nil => rfl
  | cons x xs ih =>
    simp only [List.all_cons, Bool.and_eq_true] at h
    by_cases hx : p x = true
    · simp [modifyFirst, hx, hf x h.1, h.2]
    · simp only [modifyFirst, hx, Bool.false_eq_true, if_false, List.all_cons, Bool.and_eq_true]
      exact ⟨h.1, ih h.2⟩

theorem all_filter_of_all {α : Type} (q r : α → Bool) (xs : List α) (h : xs.all q = true) :
    (xs.filter r).all q = true := by
  rw [List.all_eq_true] at h ⊢
  intro x hx
  exact h x (List.mem_filter.mp hx).1

theorem map_username_modifyFirst (session : Session) (k : User → List Playlist)
    (users : Store) :
    (modifyFirst (isSessionUser session) (fun u => u.setPlaylists (k u)) users).map
        (fun u => u.username)
      = users.map (fun u => u.username) := by
  induction users with
  | nil => rfl
  | cons x xs ih =>
    by_cases hx : isSessionUser session x = true
    · simp [modifyFirst, hx, User.setPlaylists]
    · simp [modifyFirst, hx, ih]

/-- C13 fails as stated: every rating of the sample store is an integer
between 0 and 10, rate with the rating input 11 replies `{ok: true}`, and the
store it leaves has an item rated 11. -/
theorem rate_out_of_range_counterexample :
    ratingsValid sampleStore = true
      ∧ rate sampleSession "pl-1699990000000" "it-1700000000000" (some (.num (Dec.ofInt 11)))
          sampleStore
        = (.ok, [otherUser, sampleUser.setPlaylists [samplePlaylist.setItems
            [[("type", .str "mp3"), ("itemId", .str "it-1700000000000"),
              ("rating", .num (Dec.ofInt 11))]]]])
      ∧ ratingsValid
          (rate sampleSession "pl-1699990000000" "it-1700000000000" (some (.num (Dec.ofInt 11)))
            sampleStore).2 = false := by
  decide

/-- C13, amended: the item addItem creates has the rating 0, an integer
between 0 and 10, and when every item of the store has such a rating
this still holds after create, remove, addItem and removeItem for every
request input, and after rate when the number rate stores,
`Number(rating || 0)`, is itself an integer between 0 and 10. -/
theorem ratingsValid_preserved (session : Session) (name : Option Json) (now : Nat)
    (iso playlistId itemId : String) (body : Obj) (rating : Option Json) (users : Store)
    (h : ratingsValid users = true) :
    (newItem body now).get "rating" = some (.num (Dec.ofInt 0))
      ∧ isValidRating ((newItem body now).get "rating") = true
      ∧ ratingsValid (create session name now iso users).2 = true
      ∧ ratingsValid (remove session playlistId users).2 = true
      ∧ ratingsValid (addItem session playlistId body now users).2 = true
      ∧ ratingsValid (removeItem session playlistId itemId users).2 = true
      ∧ (isValidRating (some (jsonOfNumber (toNumber (orElse rating (.num (Dec.ofInt 0))))))
            = true →
          ratingsValid (rate session playlistId itemId rating users).2 = true) := by
  have hnew : isValidRating ((newItem body now).get "rating") = true := by
    unfold newItem
    rw [Obj.get_set_self]
    decide
  refine ⟨Obj.get_set_self _ _ _, hnew, ?_, ?_, ?_, ?_, ?_⟩
  · rcases create_store session name now iso users with h0 | ⟨pl, hpl, h1⟩
    · rw [h0]; exact h
    · rw [h1]
      apply all_modifyFirst _ _ _ _ _ h
      intro u hu
      simp only [User.setPlaylists, List.all_append, Bool.and_eq_true]
      exact ⟨hu, by simp [hpl]⟩
  · rcases remove_store session playlistId users with h0 | h1
    · rw [h0]; exact h
    · rw [h1]
      apply all_modifyFirst _ _ _ _ _ h
      intro u hu
      exact all_filter_of_all _ _ _ hu
  · rcases addItem_store session playlistId body now users with h0 | h1
    · rw [h0]; exact h
    · rw [h1]
      apply all_modifyFirst _ _ _ _ _ h
      intro u hu
      apply all_modifyFirst _ _ _ _ _ hu
      intro p hp
      simp only [Playlist.setItems, List.all_append, Bool.and_eq_true]
      exact ⟨hp, by simp [hnew]⟩
  · rcases removeItem_store session playlistId itemId users with h0 | h1
    · rw [h0]; exact h
    · rw [h1]
      apply all_modifyFirst _ _ _ _ _ h
      intro u hu
      apply all_modifyFirst _ _ _ _ _ hu
      intro p hp
      exact all_filter_of_all _ _ _ hp
  · intro hr
    rcases rate_store session playlistId itemId rating users with h0 | h1
    · rw [h0]; exact h
    · rw [h1]
      apply all_modifyFirst _ _ _ _ _ h
      intro u hu
      apply all_modifyFirst _ _ _ _ _ hu
      intro p hp
      apply all_modifyFirst _ _ _ _ _ hp
      intro i _
      rw [Obj.get_set_self]
      exact hr

/-- C13, amended, on the sample store: rating the stored item 10 keeps every
rating between 0 and 10. -/
theorem ratingsValid_preserved_witness :
    ratingsValid
        (rate sampleSession "pl-1699990000000" "it-1700000000000" (some (.str "10"))
          sampleStore).2 = true
      ∧ ratingsValid
          (addItem sampleSession "pl-1699990000000" overridingBody 1700000000008
            sampleStore).2 = true :=
  ⟨(ratingsValid_preserved sampleSession none 1700000000008 "2023-11-14T22:13:20.008Z"
      "pl-1699990000000" "it-1700000000000" overridingBody (some (.str "10")) sampleStore
      (by decide)).2.2.2.2.2.2 (by decide),
    (ratingsValid_preserved sampleSession none 1700000000008 "2023-11-14T22:13:20.008Z"
      "pl-1699990000000" "it-1700000000000" overridingBody (some (.str "10")) sampleStore
      (by decide)).2.2.2.2.1⟩

theorem register_store (bc : Bcrypt) (salt : String)
    (username password firstName imageUrl : Option Json) (users : Store) :
    (register bc salt username password firstName imageUrl users).2 = users
      ∨ ∃ un hash fn img,
          username = some un
            ∧ users.find? (fun u => strictEq (some u.username) (some un)) = none
            ∧ (register bc salt username password firstName imageUrl users).2
              = users ++ [⟨un, hash, fn, img, []⟩] := by
  cases hf : users.find? (fun u => strictEq (some u.username) username) with
  | some x =>
    left
    unfold register
    split
    · rfl
    · simp [hf]
  | none =>
    unfold register
    split
    · exact Or.inl rfl
    · simp only [hf, Option.isSome_none, Bool.false_eq_true, if_false]
      cases username with
      | none => exact Or.inl rfl
      | some un =>
        cases password with
        | none => exact Or.inl rfl
        | some pwv =>
          cases firstName with
          | none => cases pwv <;> exact Or.inl rfl
          | some fn =>
            cases imageUrl with
            | none => cases pwv <;> exact Or.inl rfl
            | some img =>
              cases pwv with
              | str pw => exact Or.inr ⟨un, bc.hash pw salt, fn, img, rfl, hf, rfl⟩
              | null => exact Or.inl rfl
              | bool b => exact Or.inl rfl
              | num d => exact Or.inl rfl
              | arr xs => exact Or.inl rfl
              | obj kvs => exact Or.inl rfl

theorem same_eq_strictEq_of_primitive (r un : Json) (hp : un.isPrimitive = true) :
    Json.same r un = strictEq (some r) (some un) := by
  cases un with
  | arr xs => simp [Json.isPrimitive] at hp
  | obj kvs => simp [Json.isPrimitive] at hp
  | null => cases r <;> simp [Json.same, strictEq]
  | bool b => cases r <;> simp [Json.same, strictEq]
  | num d => cases r <;> simp [Json.same, strictEq]
  | str t => cases r <;> simp [Json.same, strictEq]

/-- C14 fails as stated: the empty store has no two records with the same
username; a register request whose username is the array `["ann"]` succeeds,
and so does a second one with the same username, since `===` never holds
between two arrays; the store then has two records with the same username. -/
theorem register_array_username_counterexample :
    usernamesUnique ([] : Store)
      ∧ register sampleBcrypt "$" (some (.arr [.str "ann"])) (some (.str "secret"))
          (some (.str "Ann")) (some (.str "ann.png")) []
        = (.ok, [⟨.arr [.str "ann"], "$secret", .str "Ann", .str "ann.png", []⟩])
      ∧ register sampleBcrypt "$" (some (.arr [.str "ann"])) (some (.str "secret"))
          (some (.str "Ann")) (some (.str "ann.png"))
          [⟨.arr [.str "ann"], "$secret", .str "Ann", .str "ann.png", []⟩]
        = (.ok, [⟨.arr [.str "ann"], "$secret", .str "Ann", .str "ann.png", []⟩,
            ⟨.arr [.str "ann"], "$secret", .str "Ann", .str "ann.png", []⟩])
      ∧ ¬ usernamesUnique
          [⟨.arr [.str "ann"], "$secret", .str "Ann", .str "ann.png", []⟩,
            ⟨.arr [.str "ann"], "$secret", .str "Ann", .str "ann.png", []⟩] := by
  decide

/-- C14, amended: when no two records of the store have the same username,
none do after a register request whose username is not an array or an object
(a string, in particular, or a missing username), whatever its other fields
and whether it succeeds, nor after create, remove, addItem, rate or removeItem,
whatever their inputs. -/
theorem usernamesUnique_preserved (bc : Bcrypt) (salt : String)
    (username password firstName imageUrl : Option Json) (session : Session)
    (name : Option Json) (now : Nat) (iso playlistId itemId : String) (body : Obj)
    (rating : Option Json) (users : Store) (h : usernamesUnique users) :
    ((∀ un, username = some un → un.isPrimitive = true) →
        usernamesUnique (register bc salt username password firstName imageUrl users).2)
      ∧ usernamesUnique (create session name now iso users).2
      ∧ usernamesUnique (remove session playlistId users).2
      ∧ usernamesUnique (addItem session playlistId body now users).2
      ∧ usernamesUnique (rate session playlistId itemId rating users).2
      ∧ usernamesUnique (removeItem session playlistId itemId users).2 := by
  refine ⟨?_, ?_, ?_, ?_, ?_, ?_⟩
  · intro hprim
    rcases register_store bc salt username password firstName imageUrl users with
      h0 | ⟨un, hash, fn, img, hun, hnone, h1⟩
    · rw [h0]; exact h
    · unfold usernamesUnique at h ⊢
      rw [h1]
      simp only [List.map_append, List.map_cons, List.map_nil]
      rw [List.pairwise_append]
      refine ⟨h, List.pairwise_singleton _ _, ?_⟩
      intro a ha b hb
      rw [List.mem_singleton] at hb
      rw [hb]
      obtain ⟨r, hr, rfl⟩ := List.mem_map.mp ha
      have hfalse := List.find?_eq_none.mp hnone r hr
      rw [same_eq_strictEq_of_primitive r.username un (hprim un hun)]
      simpa using hfalse
  · rcases create_store session name now iso users with h0 | ⟨pl, _, h1⟩
    · rw [h0]; exact h
    · unfold usernamesUnique
      rw [h1, map_username_modifyFirst]
      exact h
  · rcases remove_store session playlistId users with h0 | h1
    · rw [h0]; exact h
    · unfold usernamesUnique
      rw [h1, map_username_modifyFirst]
      exact h
  · rcases addItem_store session playlistId body now users with h0 | h1
    · rw [h0]; exact h
    · unfold usernamesUnique
      rw [h1, map_username_modifyFirst]
      exact h
  · rcases rate_store session playlistId itemId rating users with h0 | h1
    · rw [h0]; exact h
    · unfold usernamesUnique
      rw [h1, map_username_modifyFirst]
      exact h
  · rcases removeItem_store session playlistId itemId users with h0 | h1
    · rw [h0]; exact h
    · unfold usernamesUnique
      rw [h1, map_username_modifyFirst]
      exact h

/-- C14, amended, on the sample store: the usernames stay distinct after `cy`
registers and after `ann` is refused a second registration. -/
theorem usernamesUnique_preserved_witness :
    usernamesUnique
        (register sampleBcrypt "$" (some (.str "cy")) (some (.str "pw")) (some (.str "Cy"))
          (some (.str "cy.png")) sampleStore).2
      ∧ usernamesUnique
          (register sampleBcrypt "$" (some (.str "ann")) (some (.str "pw")) (some (.str "A"))
            (some (.str "a.png")) sampleStore).2 :=
  ⟨(usernamesUnique_preserved sampleBcrypt "$" (some (.str "cy")) (some (.str "pw"))
      (some (.str "Cy")) (some (.str "cy.png")) sampleSession none 1700000000008
      "2023-11-14T22:13:20.008Z" "pl-1699990000000" "it-1700000000000" sampleBody none
      sampleStore (by decide)).1 (fun un hun => by cases hun; rfl),
    (usernamesUnique_preserved sampleBcrypt "$" (some (.str "ann")) (some (.str "pw"))
      (some (.str "A")) (some (.str "a.png")) sampleSession none 1700000000008
      "2023-11-14T22:13:20.008Z" "pl-1699990000000" "it-1700000000000" sampleBody none
      sampleStore (by decide)).1 (fun un hun => by cases hun; rfl)⟩

/-- C15: the upload file filter accepts a file exactly when its declared
media type is `audio/mpeg` or its original name ends with `.mp3`, and refuses it
with the error "Only MP3 files allowed" exactly when neither holds; `track.txt`
declared `text/plain` is refused and `song.mp3` declared `audio/mpeg` is
accepted. -/
theorem fileFilter_accepts_iff (file : UploadFile) :
    (fileFilter file = .accept
        ↔ (file.mimetype = "audio/mpeg" ∨ ∃ stem, file.originalname = stem ++ utf16 ".mp3"))
      ∧ (fileFilter file = .reject "Only MP3 files allowed"
        ↔ (file.mimetype ≠ "audio/mpeg"
            ∧ ¬ ∃ stem, file.originalname = stem ++ utf16 ".mp3"))
      ∧ fileFilter ⟨"text/plain", utf16 "track.txt"⟩ = .reject "Only MP3 files allowed"
      ∧ fileFilter ⟨"audio/mpeg", utf16 "song.mp3"⟩ = .accept := by
  have hsuf : (utf16 ".mp3").isSuffixOf file.originalname = true
      ↔ ∃ stem, file.originalname = stem ++ utf16 ".mp3" := by
    rw [List.isSuffixOf_iff_suffix]
    constructor
    · rintro ⟨t, ht⟩
      exact ⟨t, ht.symm⟩
    · rintro ⟨t, ht⟩
      exact ⟨t, ht.symm⟩
  refine ⟨?_, ?_, by decide, by decide⟩
  · unfold fileFilter
    by_cases hm : file.mimetype = "audio/mpeg"
    · simp [hm]
    · by_cases hs : (utf16 ".mp3").isSuffixOf file.originalname = true
      · simp [hm, hs, hsuf.mp hs]
      · have hn : ¬ ∃ stem, file.originalname = stem ++ utf16 ".mp3" := fun h => hs (hsuf.mpr h)
        simp [hm, hs, hn]
  · unfold fileFilter
    by_cases hm : file.mimetype = "audio/mpeg"
    · simp [hm]
    · by_cases hs : (utf16 ".mp3").isSuffixOf file.originalname = true
      · simp [hm, hs, hsuf.mp hs]
      · have hn : ¬ ∃ stem, file.originalname = stem ++ utf16 ".mp3" := fun h => hs (hsuf.mpr h)
        simp [hm, hs, hn]

theorem isSafeUnit_safe (c : Nat) : isSafeUnit (if isSafeUnit c then c else 95) = true := by
  by_cases h : isSafeUnit c = true
  · simp [h]
  · simp only [h, Bool.false_eq_true, if_false]
    decide

/-- C16: for a logged-in session and a file the filter accepts, with original
name `n` at clock reading `t`, the upload replies with the file URL `/uploads/`
followed by the stored name and with `n` itself as original name; the stored
name is `t` in decimal, `-`, and the sanitized name, which has the length of
`n`, keeps every code unit of `n` in `[a-zA-Z0-9._-]` and has `_` in place of
every other one, so it holds no `/` and no backslash and sanitizing it again
changes nothing. -/
theorem uploadMp3_stored_name (session : Session) (file : UploadFile) (now : Nat)
    (hs : requireAuth session = true) (hf : fileFilter file = .accept) :
    uploadMp3 session (some file) now
        = .uploaded (utf16 "/uploads/" ++ storageFilename now file) file.originalname
      ∧ storageFilename now file
        = utf16 (toString now) ++ utf16 "-" ++ safeName file.originalname
      ∧ (safeName file.originalname).length = file.originalname.length
      ∧ (∀ (i c : Nat), file.originalname[i]? = some c →
          (safeName file.originalname)[i]? = some (if isSafeUnit c then c else 95))
      ∧ (∀ c ∈ safeName file.originalname, isSafeUnit c = true)
      ∧ 47 ∉ safeName file.originalname
      ∧ 92 ∉ safeName file.originalname
      ∧ safeName (safeName file.originalname) = safeName file.originalname := by
  have hall : ∀ c ∈ safeName file.originalname, isSafeUnit c = true := by
    intro c hc
    obtain ⟨a, _, rfl⟩ := List.mem_map.mp hc
    exact isSafeUnit_safe a
  refine ⟨?_, rfl, ?_, ?_, hall, ?_, ?_, ?_⟩
  · simp [uploadMp3, hs, hf]
  · simp [safeName]
  · intro i c hc
    simp [safeName, hc]
  · intro h47
    exact absurd (hall 47 h47) (by decide)
  · intro h92
    exact absurd (hall 92 h92) (by decide)
  · unfold safeName
    rw [List.map_map]
    apply List.map_congr_left
    intro a _
    simp only [Function.comp]
    rw [isSafeUnit_safe a]
    rfl

/-- C16, on an upload named `my song/1.mp3` declared `audio/mpeg`. -/
theorem uploadMp3_stored_name_witness :
    uploadMp3 sampleSession (some ⟨"audio/mpeg", utf16 "my song/1.mp3"⟩) 1700000000000
        = .uploaded (utf16 "/uploads/1700000000000-my_song_1.mp3") (utf16 "my song/1.mp3")
      ∧ safeName (utf16 "my song/1.mp3") = utf16 "my_song_1.mp3" :=
  ⟨(uploadMp3_stored_name sampleSession ⟨"audio/mpeg", utf16 "my song/1.mp3"⟩ 1700000000000
      (by decide) (by decide)).1.trans (by decide),
    by decide⟩

/-- C17: for a logged-in session, search with a missing or empty query
replies 400 "Missing query parameter" and calls the external API not at all;
and when the search response to a query has no item, `searchYouTube` returns
the empty list after the one search call, so the route replies with no result
and the details call is never made. -/
theorem search_without_query_or_ids (api : YouTubeApi) (session : Session)
    (q : Option String) (query : String) (hs : requireAuth session = true) :
    ((q = none ∨ q = some "") →
        search api session q = (.error 400 "Missing query parameter", []))
      ∧ (api.search query = some [] →
          searchYouTube api query = (some [], [.search query])
            ∧ (query ≠ "" →
                search api session (some query) = (.results query [], [.search query]))) := by
  constructor
  · rintro (rfl | rfl) <;> simp [search, hs]
  · intro h0
    have hy : searchYouTube api query = (some [], [.search query]) := by
      simp [searchYouTube, h0, String.intercalate]
    refine ⟨hy, ?_⟩
    intro hq
    simp [search, hs, hq, hy]

/-- C17, on the sample API: an empty query is refused without a call, and the
query `zzz`, which finds nothing, costs one call. -/
theorem search_without_query_or_ids_witness :
    search sampleApi sampleSession (some "") = (.error 400 "Missing query parameter", [])
      ∧ searchYouTube sampleApi "zzz" = (some [], [.search "zzz"]) :=
  ⟨(search_without_query_or_ids sampleApi sampleSession (some "") "zzz" (by decide)).1
      (Or.inr rfl),
    ((search_without_query_or_ids sampleApi sampleSession (some "") "zzz" (by decide)).2
      (by decide)).1⟩

theorem string_eq_empty_of_length (a : String) (h0 : a.length = 0) : a = "" := by
  cases a with
  | mk data =>
    have hd : data = [] := List.length_eq_zero.mp h0
    subst hd
    rfl

theorem intercalate_go_length (sep : String) (as : List String) (acc : String) :
    acc.length ≤ (String.intercalate.go acc sep as).length
      ∧ ∀ a ∈ as, a.length ≤ (String.intercalate.go acc sep as).length := by
  induction as generalizing acc with
  | nil => simp [String.intercalate.go]
  | cons x xs ih =>
    have h := ih (acc ++ sep ++ x)
    simp only [String.intercalate.go, String.length_append] at h ⊢
    refine ⟨by omega, ?_⟩
    intro a ha
    rcases List.mem_cons.mp ha with rfl | hxs
    · omega
    · exact h.2 a hxs

theorem intercalate_ne_empty (sep : String) (as : List String)
    (h : ∃ a ∈ as, a ≠ "") : sep.intercalate as ≠ "" := by
  obtain ⟨a, ha, hne⟩ := h
  have hpos : 0 < a.length := by
    rcases Nat.eq_zero_or_pos a.length with h0 | h0
    · exact absurd (string_eq_empty_of_length a h0) hne
    · exact h0
  intro hempty
  have hlen : (sep.intercalate as).length = 0 := by rw [hempty]; rfl
  cases as with
  | nil => simp at ha
  | cons x xs =>
    have hgo := intercalate_go_length sep xs x
    simp only [String.intercalate] at hlen
    rcases List.mem_cons.mp ha with rfl | hxs
    · omega
    · have := hgo.2 a hxs
      omega

theorem detailsMap_eq_last (details : List DetailItem) (k : String) :
    detailsMap details k
      = (details.reverse.find? (fun d => decide (d.id = k))).map
          (fun d => (d.duration, d.viewCount)) := by
  induction details using List.reverseRecOn with
  | nil => rfl
  | append_singleton xs x ih =>
    unfold detailsMap at ih ⊢
    rw [List.foldl_append, List.reverse_append]
    simp only [List.foldl_cons, List.foldl_nil, List.reverse_cons, List.reverse_nil,
      List.nil_append, List.singleton_append, List.find?_cons]
    by_cases hk : k = x.id
    · simp [hk]
    · have hk2 : ¬ x.id = k := fun h => hk h.symm
      simp only [hk, hk2, if_false, decide_False]
      exact ih

/-- C18 fails as stated: the details response has an entry for the second
video of the search response, with an empty duration and without a view count,
and the entry `searchYouTube` returns for that video has the duration "N/A" and
the views "0", which are not taken from that entry. -/
theorem searchYouTube_empty_detail_counterexample :
    emptyDetailsApi.search "rick" = some sampleSearchItems
      ∧ emptyDetailsApi.videos "dQw4w9WgXcQ,9bZkp7q19f0"
        = some [⟨"dQw4w9WgXcQ", some "PT3M33S", some "1500000000"⟩,
            ⟨"9bZkp7q19f0", some "", none⟩]
      ∧ searchYouTube emptyDetailsApi "rick"
        = (some [⟨"dQw4w9WgXcQ", "Never Gonna Give You Up",
              "https://i.ytimg.com/vi/dQw4w9WgXcQ/m.jpg", "PT3M33S", "1500000000"⟩,
            ⟨"9bZkp7q19f0", "Gangnam Style", "https://i.ytimg.com/vi/9bZkp7q19f0/m.jpg",
              "N/A", "0"⟩],
          [.search "rick", .videos "dQw4w9WgXcQ,9bZkp7q19f0"]) := by
  decide

/-- C18, amended: for a search response with at least one video id and every
details response, `searchYouTube` makes the search call and the details call
and returns a list of the length of the search items, in their order, whose
i-th entry has the videoId, title and thumbnail of the i-th search item; its
duration and views are "N/A" and "0" when no details entry has that id, and
otherwise they are the duration and view count of the last details entry with
that id where these are present and non-empty, and "N/A" and "0" where they
are missing or empty. -/
theorem searchYouTube_join (api : YouTubeApi) (query : String) (items : List SearchItem)
    (details : List DetailItem) (hsearch : api.search query = some items)
    (hid : ∃ v ∈ items, v.videoId ≠ "")
    (hdet : api.videos (",".intercalate (items.map (fun v => v.videoId))) = some details) :
    ∃ results,
      searchYouTube api query
          = (some results,
              [.search query, .videos (",".intercalate (items.map (fun v => v.videoId)))])
        ∧ results.length = items.length
        ∧ ∀ (i : Nat) (v : SearchItem), items[i]? = some v →
            ∃ r, results[i]? = some r
              ∧ r.videoId = v.videoId ∧ r.title = v.title ∧ r.thumbnail = v.thumbnail
              ∧ ((∀ d ∈ details, d.id ≠ v.videoId) → r.duration = "N/A" ∧ r.views = "0")
              ∧ (∀ d, details.reverse.find? (fun d => decide (d.id = v.videoId)) = some d →
                  (∀ x, d.duration = some x → x ≠ "" → r.duration = x)
                    ∧ ((d.duration = none ∨ d.duration = some "") → r.duration = "N/A")
                    ∧ (∀ x, d.viewCount = some x → x ≠ "" → r.views = x)
                    ∧ ((d.viewCount = none ∨ d.viewCount = some "") → r.views = "0")) := by
  have hne : ",".intercalate (items.map (fun v => v.videoId)) ≠ "" := by
    apply intercalate_ne_empty
    obtain ⟨v, hv, hvne⟩ := hid
    exact ⟨v.videoId, List.mem_map.mpr ⟨v, hv, rfl⟩, hvne⟩
  refine ⟨items.map (mergeVideo (detailsMap details)), ?_, by simp, ?_⟩
  · simp [searchYouTube, hsearch, hne, hdet]
  · intro i v hv
    refine ⟨mergeVideo (detailsMap details) v, by simp [hv], rfl, rfl, rfl, ?_, ?_⟩
    · intro hnone
      have hfind : details.reverse.find? (fun d => decide (d.id = v.videoId)) = none := by
        rw [List.find?_eq_none]
        intro d hd
        simpa using hnone d (List.mem_reverse.mp hd)
      simp [mergeVideo, detailsMap_eq_last, hfind, strOr]
    · intro d hd
      refine ⟨?_, ?_, ?_, ?_⟩
      · intro x hx hxne
        simp [mergeVideo, detailsMap_eq_last, hd, strOr, hx, hxne]
      · rintro (hx | hx) <;> simp [mergeVideo, detailsMap_eq_last, hd, strOr, hx]
      · intro x hx hxne
        simp [mergeVideo, detailsMap_eq_last, hd, strOr, hx, hxne]
      · rintro (hx | hx) <;> simp [mergeVideo, detailsMap_eq_last, hd, strOr, hx]

/-- C18, amended, on the sample API: the query `rick` finds two videos, and the
details response knows the first only. -/
theorem searchYouTube_join_witness :
    ∃ results,
      searchYouTube sampleApi "rick"
          = (some results,
              [.search "rick",
                .videos (",".intercalate (sampleSearchItems.map (fun v => v.videoId)))])
        ∧ results.length = sampleSearchItems.length
        ∧ ∀ (i : Nat) (v : SearchItem), sampleSearchItems[i]? = some v →
            ∃ r, results[i]? = some r
              ∧ r.videoId = v.videoId ∧ r.title = v.title ∧ r.thumbnail = v.thumbnail
              ∧ ((∀ d ∈ [(⟨"dQw4w9WgXcQ", some "PT3M33S", some "1500000000"⟩ :
                      DetailItem)],
                    d.id ≠ v.videoId) → r.duration = "N/A" ∧ r.views = "0")
              ∧ (∀ d, [(⟨"dQw4w9WgXcQ", some "PT3M33S", some "1500000000"⟩ :
                      DetailItem)].reverse.find? (fun d => decide (d.id = v.videoId)) = some d →
                  (∀ x, d.duration = some x → x ≠ "" → r.duration = x)
                    ∧ ((d.duration = none ∨ d.duration = some "") → r.duration = "N/A")
                    ∧ (∀ x, d.viewCount = some x → x ≠ "" → r.views = x)
                    ∧ ((d.viewCount = none ∨ d.viewCount = some "") → r.views = "0")) :=
  searchYouTube_join sampleApi "rick" sampleSearchItems
    [⟨"dQw4w9WgXcQ", some "PT3M33S", some "1500000000"⟩] (by decide)
    ⟨⟨"dQw4w9WgXcQ", "Never Gonna Give You Up", "https://i.ytimg.com/vi/dQw4w9WgXcQ/m.jpg"⟩,
      by decide, by decide⟩
    (by decide)

/-! ## Lemmas on decimal digits and on the duration pattern -/

theorem digitChar_isDigit (k : Nat) (h : k < 10) : (Nat.digitChar k).isDigit = true := by
  interval_cases k <;> decide

theorem toDigitsCore_all_digit (fuel : Nat) : ∀ (n : Nat) (ds : List Char),
    (∀ c ∈ ds, c.isDigit = true) →
      ∀ c ∈ Nat.toDigitsCore 10 fuel n ds, c.isDigit = true := by
  induction fuel with
  | zero => intro n ds h; simpa [Nat.toDigitsCore] using h
  | succ f ih =>
    intro n ds h
    have hd : ∀ c ∈ Nat.digitChar (n % 10) :: ds, c.isDigit = true := by
      intro c hc
      rcases List.mem_cons.mp hc with rfl | hc
      · exact digitChar_isDigit _ (Nat.mod_lt _ (by decide))
      · exact h c hc
    simp only [Nat.toDigitsCore]
    split
    · exact hd
    · exact ih _ _ hd

theorem toDigitsCore_length_ge (fuel : Nat) : ∀ (n : Nat) (ds : List Char),
    ds.length ≤ (Nat.toDigitsCore 10 fuel n ds).length := by
  induction fuel with
  | zero => intro n ds; simp [Nat.toDigitsCore]
  | succ f ih =>
    intro n ds
    simp only [Nat.toDigitsCore]
    split
    · simp
    · exact Nat.le_trans (by simp) (ih _ _)

theorem toDigits_all_digit (n : Nat) : ∀ c ∈ Nat.toDigits 10 n, c.isDigit = true :=
  toDigitsCore_all_digit _ _ _ (by simp)

theorem toDigits_length_pos (n : Nat) : 0 < (Nat.toDigits 10 n).length := by
  unfold Nat.toDigits
  simp only [Nat.toDigitsCore]
  split
  · simp
  · exact Nat.lt_of_lt_of_le (by simp) (toDigitsCore_length_ge _ _ _)

theorem toDigits_length_lt_two (n : Nat) : (Nat.toDigits 10 n).length < 2 ↔ n < 10 := by
  unfold Nat.toDigits
  simp only [Nat.toDigitsCore]
  constructor
  · intro h
    by_contra hn
    have hn10 : 10 ≤ n := Nat.le_of_not_lt hn
    have hdiv : n / 10 ≠ 0 := by omega
    rw [if_neg hdiv] at h
    obtain ⟨k, rfl⟩ : ∃ k, n = k + 1 := ⟨n - 1, by omega⟩
    simp only [Nat.toDigitsCore] at h
    split at h
    · simp at h
    · have := toDigitsCore_length_ge k ((k + 1) / 10 / 10)
        [Nat.digitChar ((k + 1) / 10 % 10), Nat.digitChar ((k + 1) % 10)]
      simp only [List.length_cons, List.length_nil] at this
      omega
  · intro h
    have hdiv : n / 10 = 0 := by omega
    simp [hdiv]

theorem toString_data (n : Nat) : (toString n).data = Nat.toDigits 10 n := rfl

theorem takeWhile_digits_append (ds : List Char) (x : Char) (r : List Char)
    (hds : ∀ c ∈ ds, c.isDigit = true) (hx : x.isDigit = false) :
    (ds ++ x :: r).takeWhile Char.isDigit = ds
      ∧ (ds ++ x :: r).dropWhile Char.isDigit = x :: r := by
  induction ds with
  | nil => simp [List.takeWhile, List.dropWhile, hx]
  | cons d ds ih =>
    have hd : d.isDigit = true := hds d (List.mem_cons_self _ _)
    have ih2 := ih (fun c hc => hds c (List.mem_cons_of_mem _ hc))
    simp [List.takeWhile, List.dropWhile, hd, ih2.1, ih2.2]

theorem optionalDigits_match (t : Char) (ds r : List Char)
    (hds : ∀ c ∈ ds, c.isDigit = true) (hne : ds ≠ []) (ht : t.isDigit = false) :
    optionalDigits t (ds ++ t :: r) = (some ds, r) := by
  have h := takeWhile_digits_append ds t r hds ht
  simp [optionalDigits, h.1, h.2, hne]

theorem optionalDigits_other (t x : Char) (ds r : List Char)
    (hds : ∀ c ∈ ds, c.isDigit = true) (hx : x.isDigit = false) (hxt : x ≠ t) :
    optionalDigits t (ds ++ x :: r) = (none, ds ++ x :: r) := by
  have h := takeWhile_digits_append ds x r hds hx
  simp [optionalDigits, h.2, hxt]

theorem optionalDigits_nil (t : Char) : optionalDigits t [] = (none, []) := rfl

theorem formatDuration_of_PT (iso : String) (rest : List Char)
    (h : iso.data = 'P' :: 'T' :: rest) :
    formatDuration iso
      = String.mk (groupOr (optionalDigits 'M' rest).1 ['0'] ++ [':']
          ++ padStart 2 '0'
              (groupOr (optionalDigits 'S' (optionalDigits 'M' rest).2).1 ['0'])) := by
  have h1 : iso ≠ "" := by
    intro he
    rw [he] at h
    simp at h
  have h2 : iso ≠ "N/A" := by
    intro he
    rw [he] at h
    simp at h
  simp [formatDuration, h1, h2, h, afterFirstPT]

theorem padStart_digits (s : Nat) :
    padStart 2 '0' (Nat.toDigits 10 s) = (if s < 10 then ['0'] else []) ++ Nat.toDigits 10 s := by
  have hpos := toDigits_length_pos s
  have hlt := toDigits_length_lt_two s
  unfold padStart
  by_cases hs : s < 10
  · have : (Nat.toDigits 10 s).length = 1 := by have := hlt.mpr hs; omega
    simp [hs, this, List.replicate]
  · have : 2 ≤ (Nat.toDigits 10 s).length := by
      by_contra hc
      exact hs (hlt.mp (by omega))
    have h0 : 2 - (Nat.toDigits 10 s).length = 0 := by omega
    simp [hs, h0]

/-- C19: for all natural numbers `m` and `s`, `formatDuration` turns
`PT{m}M{s}S` into `m`, a colon and `s` with a leading zero when `s` is below 10,
`PT{m}M` into `m:00`, and `PT{s}S` into `0:` and `s` with a leading zero when
`s` is below 10; `PT3M33S` gives `3:33`, `PT5S` gives `0:05`, and the empty
string and `N/A` give `N/A`. -/
theorem formatDuration_minutes_seconds (m s : Nat) :
    formatDuration ("PT" ++ toString m ++ "M" ++ toString s ++ "S")
        = toString m ++ ":" ++ (if s < 10 then "0" else "") ++ toString s
      ∧ formatDuration ("PT" ++ toString m ++ "M") = toString m ++ ":00"
      ∧ formatDuration ("PT" ++ toString s ++ "S")
        = "0:" ++ (if s < 10 then "0" else "") ++ toString s
      ∧ formatDuration "PT3M33S" = "3:33"
      ∧ formatDuration "PT5S" = "0:05"
      ∧ formatDuration "" = "N/A"
      ∧ formatDuration "N/A" = "N/A" := by
  have hm := toDigits_all_digit m
  have hs := toDigits_all_digit s
  have hmne : Nat.toDigits 10 m ≠ [] := fun h => by
    have := toDigits_length_pos m; rw [h] at this; simp at this
  have hsne : Nat.toDigits 10 s ≠ [] := fun h => by
    have := toDigits_length_pos s; rw [h] at this; simp at this
  refine ⟨?_, ?_, ?_, by decide, by decide, by decide, by decide⟩
  · rw [formatDuration_of_PT _ (Nat.toDigits 10 m ++ 'M' :: (Nat.toDigits 10 s ++ ['S']))
      (by simp [toString_data])]
    rw [optionalDigits_match 'M' _ _ hm hmne (by decide)]
    simp only []
    rw [optionalDigits_match 'S' _ _ hs hsne (by decide)]
    simp only [groupOr, hmne, hsne, if_false, padStart_digits]
    apply String.ext
    by_cases h10 : s < 10 <;> simp [h10, toString_data]
  · rw [formatDuration_of_PT _ (Nat.toDigits 10 m ++ 'M' :: [])
      (by simp [toString_data])]
    rw [optionalDigits_match 'M' _ _ hm hmne (by decide)]
    simp only [optionalDigits_nil, groupOr, hmne, if_false]
    apply String.ext
    simp [toString_data, padStart]
  · rw [formatDuration_of_PT _ (Nat.toDigits 10 s ++ 'S' :: [])
      (by simp [toString_data])]
    rw [optionalDigits_other 'M' 'S' _ _ hs (by decide) (by decide)]
    simp only []
    rw [optionalDigits_match 'S' _ _ hs hsne (by decide)]
    simp only [groupOr, hsne, if_false, padStart_digits]
    apply String.ext
    by_cases h10 : s < 10 <;> simp [h10, toString_data]

theorem afterFirstPT_some (cs rest : List Char) (h : afterFirstPT cs = some rest) :
    ∃ pre, cs = pre ++ 'P' :: 'T' :: rest := by
  induction cs with
  | nil => simp [afterFirstPT] at h
  | cons c cs ih =>
    unfold afterFirstPT at h
    by_cases hc : c = 'P' ∧ cs.head? = some 'T'
    · rw [if_pos hc] at h
      have hrest : cs.tail = rest := Option.some.inj h
      cases cs with
      | nil => simp at hc
      | cons t ts =>
        have ht : t = 'T' := by simpa using hc.2
        refine ⟨[], ?_⟩
        simp at hrest
        simp [hc.1, ht, hrest]
    · rw [if_neg hc] at h
      obtain ⟨pre, hpre⟩ := ih h
      exact ⟨c :: pre, by simp [hpre]⟩

/-- C20: for every string that starts with `PT`, digits and `H`,
`formatDuration` returns `0:00`, whatever follows, as for `PT1H2M3S`; and for
every string that is not empty, is not `N/A` and does not contain `PT`, it
returns the string unchanged. -/
theorem formatDuration_hours_or_no_PT (ds rest iso : String) :
    ((∀ c ∈ ds.toList, c.isDigit = true) →
        formatDuration ("PT" ++ ds ++ "H" ++ rest) = "0:00")
      ∧ formatDuration "PT1H2M3S" = "0:00"
      ∧ (iso ≠ "" → iso ≠ "N/A" → ¬ "PT".toList <:+: iso.toList →
          formatDuration iso = iso) := by
  refine ⟨?_, by decide, ?_⟩
  · intro hds
    have hds2 : ∀ c ∈ ds.data, c.isDigit = true := hds
    rw [formatDuration_of_PT _ (ds.data ++ 'H' :: rest.data) (by simp)]
    rw [optionalDigits_other 'M' 'H' _ _ hds2 (by decide) (by decide)]
    simp only []
    rw [optionalDigits_other 'S' 'H' _ _ hds2 (by decide) (by decide)]
    rfl
  · intro h1 h2 hno
    have hnone : afterFirstPT iso.toList = none := by
      cases hf : afterFirstPT iso.toList with
      | none => rfl
      | some r =>
        obtain ⟨pre, hpre⟩ := afterFirstPT_some _ _ hf
        exact absurd ⟨pre, r, by rw [hpre]; simp⟩ hno
    simp only [formatDuration, h1, h2, or_self, if_false, hnone]

/-- C20, on `PT12H30M15S` and on `P0D`. -/
theorem formatDuration_hours_or_no_PT_witness :
    formatDuration ("PT" ++ "12" ++ "H" ++ "30M15S") = "0:00"
      ∧ formatDuration "P0D" = "P0D" :=
  ⟨(formatDuration_hours_or_no_PT "12" "30M15S" "P0D").1 (by decide),
    (formatDuration_hours_or_no_PT "12" "30M15S" "P0D").2.2 (by decide) (by decide)
      (by decide)⟩

/-! ## The frame of the playlist routes -/

theorem onlySessionPlaylistsChange_refl (session : Session) (users : Store) :
    onlySessionPlaylistsChange session users users := by
  refine ⟨rfl, ?_⟩
  intro i r hr
  exact ⟨r, hr, rfl, rfl, rfl, rfl, fun h => absurd rfl h⟩

theorem onlySessionPlaylistsChange_modifyFirst (session : Session)
    (k : User → List Playlist) (users : Store) :
    onlySessionPlaylistsChange session users
      (modifyFirst (isSessionUser session) (fun u => u.setPlaylists (k u)) users) := by
  refine ⟨length_modifyFirst _ _ _, ?_⟩
  induction users with
  | nil =>
    intro i r hr
    simp at hr
  | cons x xs ih =>
    intro i r hr
    by_cases hx : isSessionUser session x = true
    · simp only [modifyFirst, hx, if_true]
      cases i with
      | zero =>
        have hxr : x = r := by simpa using hr
        subst hxr
        refine ⟨x.setPlaylists (k x), by simp, rfl, rfl, rfl, rfl, ?_⟩
        intro _
        refine ⟨hx, ?_⟩
        intro j q hj
        omega
      | succ n =>
        refine ⟨r, by simpa using hr, rfl, rfl, rfl, rfl, fun h => absurd rfl h⟩
    · simp only [modifyFirst, hx, Bool.false_eq_true, if_false]
      cases i with
      | zero =>
        refine ⟨r, by simpa using hr, rfl, rfl, rfl, rfl, fun h => absurd rfl h⟩
      | succ n =>
        have hr2 : xs[n]? = some r := by simpa using hr
        obtain ⟨r2, h2, hu, hp, hf, hi, hch⟩ := ih n r hr2
        refine ⟨r2, by simpa using h2, hu, hp, hf, hi, ?_⟩
        intro hne
        obtain ⟨hs, hbefore⟩ := hch hne
        refine ⟨hs, ?_⟩
        intro j q hj hq
        cases j with
        | zero =>
          have hxq : x = q := by simpa using hq
          subst hxq
          simpa using hx
        | succ m =>
          exact hbefore m q (by omega) (by simpa using hq)

/-- C21: create, remove, addItem, rate and removeItem, for every session and
every input, leave a store with the same number of user records in the same
order, in which every record has the username, password hash, first name and
image URL it had, and in which the only record whose playlists can differ is
the first record whose username is the session user's. -/
theorem playlist_routes_frame (session : Session) (name : Option Json) (now : Nat)
    (iso playlistId itemId : String) (body : Obj) (rating : Option Json) (users : Store) :
    onlySessionPlaylistsChange session users (create session name now iso users).2
      ∧ onlySessionPlaylistsChange session users (remove session playlistId users).2
      ∧ onlySessionPlaylistsChange session users (addItem session playlistId body now users).2
      ∧ onlySessionPlaylistsChange session users
          (rate session playlistId itemId rating users).2
      ∧ onlySessionPlaylistsChange session users
          (removeItem session playlistId itemId users).2 := by
  refine ⟨?_, ?_, ?_, ?_, ?_⟩
  · rcases create_store session name now iso users with h0 | ⟨pl, _, h1⟩
    · rw [h0]; exact onlySessionPlaylistsChange_refl session users
    · rw [h1]; exact onlySessionPlaylistsChange_modifyFirst session _ users
  · rcases remove_store session playlistId users with h0 | h1
    · rw [h0]; exact onlySessionPlaylistsChange_refl session users
    · rw [h1]; exact onlySessionPlaylistsChange_modifyFirst session _ users
  · rcases addItem_store session playlistId body now users with h0 | h1
    · rw [h0]; exact onlySessionPlaylistsChange_refl session users
    · rw [h1]; exact onlySessionPlaylistsChange_modifyFirst session _ users
  · rcases rate_store session playlistId itemId rating users with h0 | h1
    · rw [h0]; exact onlySessionPlaylistsChange_refl session users
    · rw [h1]; exact onlySessionPlaylistsChange_modifyFirst session _ users
  · rcases removeItem_store session playlistId itemId users with h0 | h1
    · rw [h0]; exact onlySessionPlaylistsChange_refl session users
    · rw [h1]; exact onlySessionPlaylistsChange_modifyFirst session _ users

/-- C21, on the sample store: `ann` rates her item, and the record of `bob`,
which is stored first, is the record it was. -/
theorem playlist_routes_frame_witness :
    (rate sampleSession "pl-1699990000000" "it-1700000000000" (some (.str "7"))
        sampleStore).2.length = sampleStore.length
      ∧ ∃ r2, (rate sampleSession "pl-1699990000000" "it-1700000000000" (some (.str "7"))
            sampleStore).2[0]? = some r2
          ∧ r2.username = otherUser.username ∧ r2.passwordHash = otherUser.passwordHash
          ∧ r2.firstName = otherUser.firstName ∧ r2.imageUrl = otherUser.imageUrl
          ∧ (r2.playlists ≠ otherUser.playlists →
              isSessionUser sampleSession otherUser = true
                ∧ ∀ (j : Nat) (q : User), j < 0 → sampleStore[j]? = some q →
                    isSessionUser sampleSession q = false) :=
  ⟨(playlist_routes_frame sampleSession none 1700000000008 "2023-11-14T22:13:20.008Z"
      "pl-1699990000000" "it-1700000000000" sampleBody (some (.str "7"))
      sampleStore).2.2.2.1.1,
    (playlist_routes_frame sampleSession none 1700000000008 "2023-11-14T22:13:20.008Z"
      "pl-1699990000000" "it-1700000000000" sampleBody (some (.str "7"))
      sampleStore).2.2.2.1.2 0 otherUser (by decide)⟩

end PlaylistApp
